import Mathlib

/-!
Verification of the quota-scan orchestrator of `bin/dquota.py`
(vsc-filesystems-quota).

The script's `main` is embedded as a pure function over an abstract storage
backend snapshot.  External collaborators (GPFS queries, the account page
client, the LDAP directory) are modelled as fields of a `Backend` record whose
query operations may fail (`Except`), mirroring Python exceptions.  The
quota-tools collaborators (`get_mmrepquota_maps`, `process_user_quota`,
`process_fileset_quota`, `notify_exceeding_users`, `notify_exceeding_filesets`
from `vsc.filesystem.quota.tools`) belong to this repository but are not under
src/; they are modelled from the spec, as indicated in their doc comments.
Observable behaviour (log-worthy decisions, notification dispatch, delivery,
monitoring epilogue) is recorded as an event trace.
-/

namespace DQuota

/-- One entity's quota state on one filesystem (spec §3 QuotaRecord):
block usage / soft / hard / grace expiry, file usage / soft / hard / grace
expiry.  Grace expiries are nullable timestamps. -/
structure QuotaRecord where
  blockUsage : Nat
  blockSoft : Nat
  blockHard : Nat
  blockGraceExpiry : Option Nat
  filesUsage : Nat
  filesSoft : Nat
  filesHard : Nat
  filesGraceExpiry : Option Nat
deriving Repr, DecidableEq

/-- Entity kinds understood by the classifier: the `USR` and `FILESET`
sections of an mmrepquota report. -/
inductive EntityKind where
  | USR
  | FILESET
deriving Repr, DecidableEq

/-- One raw report line: entity identifier, kind, quota record. -/
structure RawEntry where
  entity : String
  kind : EntityKind
  record : QuotaRecord
deriving Repr, DecidableEq

/-- The per-storage-target configuration data used by `main`:
`storage[name].filesystem` and `storage[name].data_replication_factor`. -/
structure StorageInfo where
  filesystem : String
  data_replication_factor : Nat
deriving Repr, DecidableEq

/-- The command-line options `main` reads: the list of storage targets and
the dry-run flag of `ExtendedSimpleOption`. -/
structure Options where
  storage : List String
  dry_run : Bool
deriving Repr, DecidableEq

/-- A snapshot of the external collaborators for one scan cycle.  Query
operations return `Except String` because any of them may raise in Python;
`storageMap` is partial because `VscStorage` lookup raises `KeyError` on an
unknown storage name.  `now` is the evaluation time used by the classifier. -/
structure Backend where
  storageMap : String → Option StorageInfo
  uidMapResult : Except String (List (Nat × String))
  listFilesystems : List String → Except String (List String)
  listFilesetsResult : Except String (List String)
  listQuotaResult : Except String (List (String × List RawEntry))
  now : Nat

/-- `quota[filesystem]` together with the `filesystem not in quota.keys()`
test: association-list lookup on the raw report. -/
def lookupQuota : List (String × List RawEntry) → String → Option (List RawEntry)
  | [], _ => none
  | (fs, entries) :: rest, k => if fs = k then some entries else lookupQuota rest k

/-- Nagios constants from `vsc.utils.nagios`. -/
def NAGIOS_EXIT_CRITICAL : Nat := 2

/-- Module constant of dquota.py. -/
def QUOTA_USERS_WARNING : Nat := 20

/-- Module constant of dquota.py. -/
def QUOTA_USERS_CRITICAL : Nat := 40

/-- Module constant of dquota.py. -/
def QUOTA_FILESETS_CRITICAL : Nat := 1

/-- Modelled from the spec: `get_mmrepquota_maps` of
`vsc.filesystem.quota.tools` is not under src/.  Per §4.1, effective block
usage is raw block usage times the replication factor, file counts are not
scaled, and only the `user` and `fileset` kinds are kept, split per kind
(`USR` first, `FILESET` second), preserving report order. -/
def get_mmrepquota_maps (raw : List RawEntry) (replication : Nat) :
    List (String × QuotaRecord) × List (String × QuotaRecord) :=
  let scale := fun (q : QuotaRecord) => { q with blockUsage := q.blockUsage * replication }
  ( (raw.filter (fun e => match e.kind with | .USR => true | _ => false)).map
      (fun e => (e.entity, scale e.record))
  , (raw.filter (fun e => match e.kind with | .FILESET => true | _ => false)).map
      (fun e => (e.entity, scale e.record)) )

/-- Grace test of §4.2: the grace-expiry timestamp is set and at or before
the evaluation time. -/
def graceExpired (grace : Option Nat) (now : Nat) : Bool :=
  match grace with
  | some t => decide (t ≤ now)
  | none => false

/-- Modelled from the spec (§4.2), block dimension: exceeding iff usage ≥
hard limit, or usage ≥ soft limit with an expired grace period. -/
def blockExceeds (now : Nat) (q : QuotaRecord) : Bool :=
  decide (q.blockHard ≤ q.blockUsage) ||
    (decide (q.blockSoft ≤ q.blockUsage) && graceExpired q.blockGraceExpiry now)

/-- Modelled from the spec (§4.2), file dimension: exceeding iff usage ≥
hard limit, or usage ≥ soft limit with an expired grace period. -/
def filesExceeds (now : Nat) (q : QuotaRecord) : Bool :=
  decide (q.filesHard ≤ q.filesUsage) ||
    (decide (q.filesSoft ≤ q.filesUsage) && graceExpired q.filesGraceExpiry now)

/-- Exceed kind of an ExceedingEntity (spec §3): block, file or both. -/
inductive ExceedKind where
  | block
  | file
  | both
deriving Repr, DecidableEq

/-- An ExceedingEntity: identifier, record and exceed kind (spec §3). -/
abbrev Exc := String × QuotaRecord × ExceedKind

/-- The two §4.2 dimensions combined into an optional exceed kind. -/
def classifyRecord (now : Nat) (q : QuotaRecord) : Option ExceedKind :=
  match blockExceeds now q, filesExceeds now q with
  | true, true => some .both
  | true, false => some .block
  | false, true => some .file
  | false, false => none

/-- Modelled from the spec: the §4.2 classifier returns the sparse exceeding
sequence, in the report enumeration order. -/
def classify (now : Nat) (records : List (String × QuotaRecord)) : List Exc :=
  records.filterMap (fun p => (classifyRecord now p.2).map (fun k => (p.1, p.2, k)))

/-- Modelled from the spec: `process_user_quota` of
`vsc.filesystem.quota.tools` is not under src/.  Per §4.2/§4.4 it returns the
exceeding-user sequence for the normalized user records; its returned set does
not depend on `dryRun`, which only suppresses downstream delivery. -/
def process_user_quota (now : Nat) (records : List (String × QuotaRecord))
    (dryRun : Bool) : List Exc :=
  classify now records

/-- Modelled from the spec: `process_fileset_quota` of
`vsc.filesystem.quota.tools` is not under src/.  Per §4.2/§4.4 it returns the
exceeding-fileset sequence for the normalized fileset records; its returned
set does not depend on `dryRun`. -/
def process_fileset_quota (now : Nat) (records : List (String × QuotaRecord))
    (dryRun : Bool) : List Exc :=
  classify now records

/-- Observable events of one scan cycle, in program order. -/
inductive Event where
  | fetchQuota
  | processTarget (name : String)
  | skipMissingFs (name : String) (filesystem : String)
  | skipNoQuota (name : String) (filesystem : String)
  | notifyFilesets (storage : String) (filesystem : String) (items : List Exc) (dryRun : Bool)
  | notifyUsers (storage : String) (filesystem : String) (items : List Exc) (dryRun : Bool)
  | deliver (kind : EntityKind) (storage : String) (entity : String)
  | epilogueEv (message : String) (stats : List (String × Nat))
  | criticalEv (message : String)
deriving Repr, DecidableEq

/-- Modelled from the spec: `notify_exceeding_filesets` of
`vsc.filesystem.quota.tools` is not under src/.  Per §4.4 it is invoked with
the exceeding items whatever the dry-run flag, and delivers one notification
per item exactly when not in dry-run. -/
def notify_exceeding_filesets (storage filesystem : String) (items : List Exc)
    (dryRun : Bool) : List Event :=
  Event.notifyFilesets storage filesystem items dryRun ::
    (if dryRun then [] else items.map (fun i => Event.deliver .FILESET storage i.1))

/-- Modelled from the spec: `notify_exceeding_users` of
`vsc.filesystem.quota.tools` is not under src/.  Per §4.4 it is invoked with
the exceeding items whatever the dry-run flag, and delivers one notification
per item exactly when not in dry-run. -/
def notify_exceeding_users (storage filesystem : String) (items : List Exc)
    (dryRun : Bool) : List Event :=
  Event.notifyUsers storage filesystem items dryRun ::
    (if dryRun then [] else items.map (fun i => Event.deliver .USR storage i.1))

/-- The stats mapping: a Python dict with string keys and counter values,
insertion-ordered. -/
abbrev Stats := List (String × Nat)

/-- `stats[k] = v`: update the existing binding in place, or append. -/
def setStat : Stats → String → Nat → Stats
  | [], k, v => [(k, v)]
  | (k0, v0) :: rest, k, v =>
    if k0 = k then (k, v) :: rest else (k0, v0) :: setStat rest k v

/-- Dict lookup on the stats mapping. -/
def getStat : Stats → String → Option Nat
  | [], _ => none
  | (k0, v0) :: rest, k => if k0 = k then some v0 else getStat rest k

/-- Mutable state threaded through the per-target loop of `main`:
the event trace, the `exceeding_filesets` and `exceeding_users` dicts
(keyed by storage name, insertion-ordered) and the `stats` dict. -/
structure LoopState where
  events : List Event
  exFilesets : List (String × List Exc)
  exUsers : List (String × List Exc)
  stats : Stats
deriving Repr, DecidableEq

/-- The `for storage_name in opts.options.storage` loop of `main`
(dquota.py lines 98-171).  Returns the final state and `some err` when an
exception escaped the loop body (freezing the trace at that point), `none`
when the loop ran to completion. -/
def runTargets (B : Backend) (dryRun : Bool) (filesystems : List String)
    (quota : List (String × List RawEntry)) :
    List String → LoopState → LoopState × Option String
  | [], st => (st, none)
  | name :: rest, st =>
    let st1 : LoopState := { st with events := st.events ++ [Event.processTarget name] }
    match B.storageMap name with
    | none => (st1, some ("KeyError: " ++ name))
    | some info =>
      if info.filesystem ∈ filesystems then
        match lookupQuota quota info.filesystem with
        | none =>
          runTargets B dryRun filesystems quota rest
            { st1 with events := st1.events ++ [Event.skipNoQuota name info.filesystem] }
        | some rawEntries =>
          let maps := get_mmrepquota_maps rawEntries info.data_replication_factor
          let ef := process_fileset_quota B.now maps.2 dryRun
          let eu := process_user_quota B.now maps.1 dryRun
          let stats1 := setStat st1.stats (name ++ "_fileset_critical") QUOTA_FILESETS_CRITICAL
          let stats2 := setStat stats1 (name ++ "_fileset") (if ef.isEmpty then 0 else 1)
          let evs1 := st1.events ++ notify_exceeding_filesets name info.filesystem ef dryRun
          let stats3 := setStat stats2 (name ++ "_users_warning") QUOTA_USERS_WARNING
          let stats4 := setStat stats3 (name ++ "_users_critical") QUOTA_USERS_CRITICAL
          let stats5 := setStat stats4 (name ++ "_users") (if eu.isEmpty then 0 else eu.length)
          let evs2 := evs1 ++ notify_exceeding_users name info.filesystem eu dryRun
          runTargets B dryRun filesystems quota rest
            { events := evs2
            , exFilesets := st1.exFilesets ++ [(name, ef)]
            , exUsers := st1.exUsers ++ [(name, eu)]
            , stats := stats5 }
      else
        runTargets B dryRun filesystems quota rest
          { st1 with events := st1.events ++ [Event.skipMissingFs name info.filesystem] }

/-- The list comprehension `[storage[s].filesystem for s in opts.options.storage]`
(dquota.py line 85): raises `KeyError` on the first unknown storage name. -/
def targetFilesystems (B : Backend) : List String → Except String (List String)
  | [] => .ok []
  | s :: rest =>
    match B.storageMap s with
    | none => .error ("KeyError: " ++ s)
    | some info =>
      match targetFilesystems B rest with
      | .error e => .error e
      | .ok fs => .ok (info.filesystem :: fs)

/-- Result of a completed scan cycle: the two exceeding dicts and the stats
mapping handed to the epilogue. -/
structure BodyRes where
  exFilesets : List (String × List Exc)
  exUsers : List (String × List Exc)
  stats : Stats
deriving Repr, DecidableEq

/-- The `try:` body of `main` (dquota.py lines 78-171): set up collaborators,
resolve every configured storage name, fetch the known filesystems, the
filesets and the raw quota report once, then run the per-target loop.
Returns the trace together with either the completed-cycle result or the
escaped exception. -/
def tryBody (opts : Options) (B : Backend) : List Event × Except String BodyRes :=
  match B.uidMapResult with
  | .error e => ([], .error e)
  | .ok _ =>
    match targetFilesystems B opts.storage with
    | .error e => ([], .error e)
    | .ok tfs =>
      match B.listFilesystems tfs with
      | .error e => ([], .error e)
      | .ok filesystems =>
        match B.listFilesetsResult with
        | .error e => ([], .error e)
        | .ok _ =>
          match B.listQuotaResult with
          | .error e => ([], .error e)
          | .ok quota =>
            match runTargets B opts.dry_run filesystems quota opts.storage
                { events := [Event.fetchQuota], exFilesets := [], exUsers := [], stats := [] } with
            | (st, some e) => (st.events, .error e)
            | (st, none) =>
              (st.events,
               .ok { exFilesets := st.exFilesets, exUsers := st.exUsers, stats := st.stats })

/-- Outcome of `main`: the full event trace and the `sys.exit` code (`some`
on the critical path; `none` on success, where the exit status is delegated
to the epilogue of the monitoring collaborator). -/
structure MainRes where
  events : List Event
  exitCode : Option Nat
deriving Repr, DecidableEq

/-- `main` of dquota.py: run the try body; on any exception report the fixed
critical summary and exit with the Nagios critical status (lines 172-175);
otherwise hand the stats to the monitoring epilogue (line 177). -/
def main (opts : Options) (B : Backend) : MainRes :=
  match tryBody opts B with
  | (evs, .error _) =>
    { events := evs ++ [Event.criticalEv "Script failed in a horrible way"]
    , exitCode := some NAGIOS_EXIT_CRITICAL }
  | (evs, .ok res) =>
    { events := evs ++ [Event.epilogueEv "quota check completed" res.stats]
    , exitCode := none }

/-- Trace observation: is this event the quota-report fetch? -/
def isFetch : Event → Bool
  | .fetchQuota => true
  | _ => false

/-- Trace observation: is this event the monitoring epilogue? -/
def isEpilogue : Event → Bool
  | .epilogueEv _ _ => true
  | _ => false

/-- Trace observation: is this event an actual notification delivery? -/
def isDeliver : Event → Bool
  | .deliver _ _ _ => true
  | _ => false

/-- Trace observation: the storage names of the per-target processing events,
in trace order. -/
def processedNames (evs : List Event) : List String :=
  evs.filterMap (fun e => match e with | .processTarget n => some n | _ => none)

/-- Trace observation: the arguments of a notification-dispatcher invocation
(which dispatcher, storage name, filesystem, exceeding items), without the
dry-run flag — the §6 interface arguments. -/
def notifyArgs : Event → Option (Bool × String × String × List Exc)
  | .notifyFilesets s f items _ => some (false, s, f, items)
  | .notifyUsers s f items _ => some (true, s, f, items)
  | _ => none

/-- Follows the spec's words (§6 Configuration input), not the source: a
configuration that supplies the per-kind severity thresholds alongside the
storage-target list.  The source's option table has no threshold options;
this definition exists only to compare that refinement claim with the
source's behaviour. -/
structure SpecConfiguration where
  storage : List String
  dry_run : Bool
  quotaFilesetsCritical : Nat
  quotaUsersWarning : Nat
  quotaUsersCritical : Nat
deriving Repr, DecidableEq

/-- A quota record whose block usage (100) is at or above its block hard
limit (60). -/
def hardBreachRecord : QuotaRecord :=
  { blockUsage := 100, blockSoft := 50, blockHard := 60, blockGraceExpiry := none
  , filesUsage := 0, filesSoft := 10, filesHard := 20, filesGraceExpiry := none }

/-- A raw report for filesystem `f` with two hard-breaching filesets and one
hard-breaching user. -/
def cexRaw : List (String × List RawEntry) :=
  [("f", [ { entity := "fs1", kind := .FILESET, record := hardBreachRecord }
         , { entity := "fs2", kind := .FILESET, record := hardBreachRecord }
         , { entity := "u1", kind := .USR, record := hardBreachRecord } ])]

/-- A concrete backend snapshot with one storage target `s` on filesystem
`f`, used to instantiate hypotheses at concrete inputs. -/
def cexBackend : Backend :=
  { storageMap := fun s => if s = "s" then some { filesystem := "f", data_replication_factor := 1 } else none
  , uidMapResult := .ok []
  , listFilesystems := fun _ => .ok ["f"]
  , listFilesetsResult := .ok []
  , listQuotaResult := .ok cexRaw
  , now := 0 }

/-- `cexBackend` with a failing raw-quota query. -/
def failBackend : Backend :=
  { cexBackend with listQuotaResult := .error "mmrepquota failed" }

/-- A backend with two storage targets `a` (filesystem `fa`, not mounted)
and `b` (filesystem `fb`, with quota data). -/
def twoTargetBackend : Backend :=
  { storageMap := fun s =>
      if s = "a" then some { filesystem := "fa", data_replication_factor := 1 }
      else if s = "b" then some { filesystem := "fb", data_replication_factor := 1 }
      else none
  , uidMapResult := .ok []
  , listFilesystems := fun _ => .ok ["fb"]
  , listFilesetsResult := .ok []
  , listQuotaResult := .ok [("fb", [ { entity := "u1", kind := .USR, record := hardBreachRecord } ])]
  , now := 0 }

/-- A spec-words configuration supplying thresholds 9/5/7, different from
the module constants of dquota.py. -/
def cexSpecConfig : SpecConfiguration :=
  { storage := ["s"], dry_run := false
  , quotaFilesetsCritical := 9, quotaUsersWarning := 5, quotaUsersCritical := 7 }

theorem string_append_left_cancel {s a b : String} (h : s ++ a = s ++ b) : a = b := by
  have hd := congrArg String.data h
  simp [String.data_append] at hd
  exact String.ext hd

theorem string_append_ne (s a b : String) (h : a ≠ b) : s ++ a ≠ s ++ b :=
  fun hc => h (string_append_left_cancel hc)

theorem getStat_setStat_same (st : Stats) (k : String) (v : Nat) :
    getStat (setStat st k v) k = some v := by
  induction st with
  | nil => simp [setStat, getStat]
  | cons p rest ih =>
    obtain ⟨k0, v0⟩ := p
    by_cases h : k0 = k
    · simp [setStat, getStat, h]
    · simp [setStat, getStat, h, ih]

theorem getStat_setStat_ne (st : Stats) {knew k : String} (h : knew ≠ k) (v : Nat) :
    getStat (setStat st knew v) k = getStat st k := by
  induction st with
  | nil => simp [setStat, getStat, h]
  | cons p rest ih =>
    obtain ⟨k1, v1⟩ := p
    by_cases h1 : k1 = knew
    · subst h1
      simp [setStat, getStat, h]
    · by_cases h2 : k1 = k
      · subst h2
        simp [setStat, getStat, h1, Ne.symm h]
      · simp [setStat, getStat, h1, h2, ih]

theorem setStat_five (name : String) (v1 v2 v3 v4 v5 : Nat) :
    setStat (setStat (setStat (setStat (setStat [] (name ++ "_fileset_critical") v1)
        (name ++ "_fileset") v2) (name ++ "_users_warning") v3)
        (name ++ "_users_critical") v4) (name ++ "_users") v5 =
      [ (name ++ "_fileset_critical", v1), (name ++ "_fileset", v2)
      , (name ++ "_users_warning", v3), (name ++ "_users_critical", v4)
      , (name ++ "_users", v5) ] := by
  have h12 := string_append_ne name "_fileset_critical" "_fileset" (by decide)
  have h13 := string_append_ne name "_fileset_critical" "_users_warning" (by decide)
  have h23 := string_append_ne name "_fileset" "_users_warning" (by decide)
  have h14 := string_append_ne name "_fileset_critical" "_users_critical" (by decide)
  have h24 := string_append_ne name "_fileset" "_users_critical" (by decide)
  have h34 := string_append_ne name "_users_warning" "_users_critical" (by decide)
  have h15 := string_append_ne name "_fileset_critical" "_users" (by decide)
  have h25 := string_append_ne name "_fileset" "_users" (by decide)
  have h35 := string_append_ne name "_users_warning" "_users" (by decide)
  have h45 := string_append_ne name "_users_critical" "_users" (by decide)
  simp [setStat, h12, h13, h23, h14, h24, h34, h15, h25, h35, h45]

/-- Claim C3: every quota record whose block usage is at or above its block
hard limit is included by the classifier in the exceeding set returned by
`process_user_quota`, whatever its grace-expiry timestamp (present or
absent). -/
theorem c3_hard_breach_always_exceeding (now : Nat) (records : List (String × QuotaRecord))
    (dryRun : Bool) (e : String) (q : QuotaRecord)
    (hmem : (e, q) ∈ records) (hhard : q.blockHard ≤ q.blockUsage) :
    ∃ k, (e, q, k) ∈ process_user_quota now records dryRun := by
  have hb : blockExceeds now q = true := by
    unfold blockExceeds
    rw [decide_eq_true hhard, Bool.true_or]
  cases hf : filesExceeds now q with
  | false =>
    refine ⟨.block, ?_⟩
    unfold process_user_quota classify
    rw [List.mem_filterMap]
    exact ⟨(e, q), hmem, by simp [classifyRecord, hb, hf]⟩
  | true =>
    refine ⟨.both, ?_⟩
    unfold process_user_quota classify
    rw [List.mem_filterMap]
    exact ⟨(e, q), hmem, by simp [classifyRecord, hb, hf]⟩

/-- Witness for C3 at a concrete hard-breaching record. -/
theorem c3_witness :
    (("u1", hardBreachRecord) ∈ [("u1", hardBreachRecord)] ∧
      hardBreachRecord.blockHard ≤ hardBreachRecord.blockUsage) ∧
    ∃ k, ("u1", hardBreachRecord, k) ∈ process_user_quota 0 [("u1", hardBreachRecord)] false :=
  ⟨⟨by decide, by decide⟩,
    c3_hard_breach_always_exceeding 0 [("u1", hardBreachRecord)] false "u1" hardBreachRecord
      (by decide) (by decide)⟩

/-- Claim C10: with an empty configured storage-target list the per-target
loop body never runs and `main` reports the success epilogue with an empty
stats mapping. -/
theorem c10_empty_storage_success (B : Backend) (dry : Bool)
    (u : List (Nat × String)) (fss fsets : List String)
    (q : List (String × List RawEntry))
    (hu : B.uidMapResult = .ok u)
    (hlf : B.listFilesystems [] = .ok fss)
    (hfs : B.listFilesetsResult = .ok fsets)
    (hq : B.listQuotaResult = .ok q) :
    main { storage := [], dry_run := dry } B =
      { events := [Event.fetchQuota, Event.epilogueEv "quota check completed" []]
      , exitCode := none } := by
  simp [main, tryBody, targetFilesystems, hu, hlf, hfs, hq, runTargets]

/-- Witness for C10 at a concrete backend. -/
theorem c10_witness :
    (cexBackend.uidMapResult = .ok [] ∧ cexBackend.listFilesystems [] = .ok ["f"] ∧
      cexBackend.listFilesetsResult = .ok [] ∧ cexBackend.listQuotaResult = .ok cexRaw) ∧
    main { storage := [], dry_run := false } cexBackend =
      { events := [Event.fetchQuota, Event.epilogueEv "quota check completed" []]
      , exitCode := none } :=
  ⟨⟨rfl, rfl, rfl, rfl⟩, c10_empty_storage_success cexBackend false [] ["f"] [] cexRaw rfl rfl rfl rfl⟩

theorem targetFilesystems_error_of_unknown (B : Backend) :
    ∀ names : List String, ∀ s ∈ names, B.storageMap s = none →
      ∃ e, targetFilesystems B names = .error e := by
  intro names
  induction names with
  | nil => intro s hs; cases hs
  | cons n rest ih =>
    intro s hs hnone
    rcases List.mem_cons.mp hs with rfl | hs2
    · exact ⟨"KeyError: " ++ s, by simp [targetFilesystems, hnone]⟩
    · cases hn : B.storageMap n with
      | none => exact ⟨"KeyError: " ++ n, by simp [targetFilesystems, hn]⟩
      | some info =>
        obtain ⟨e, he⟩ := ih s hs2 hnone
        exact ⟨e, by simp [targetFilesystems, hn, he]⟩

/-- Claim C9: a configured storage-target name unknown to the storage
configuration makes the cycle abort before the loop: the try-body trace is
empty (no quota fetch, no target processed, hence no stats recorded) and
`main` reports only the generic critical event. -/
theorem c9_unknown_storage_aborts (opts : Options) (B : Backend)
    (u : List (Nat × String)) (hu : B.uidMapResult = .ok u)
    (s : String) (hs : s ∈ opts.storage) (hnone : B.storageMap s = none) :
    (tryBody opts B).1 = [] ∧
    main opts B = { events := [Event.criticalEv "Script failed in a horrible way"]
                  , exitCode := some NAGIOS_EXIT_CRITICAL } := by
  obtain ⟨e, he⟩ := targetFilesystems_error_of_unknown B opts.storage s hs hnone
  constructor
  · simp [tryBody, hu, he]
  · simp [main, tryBody, hu, he]

/-- Witness for C9 at a concrete unknown storage name. -/
theorem c9_witness :
    (cexBackend.uidMapResult = .ok [] ∧ "zzz" ∈ ["zzz"] ∧ cexBackend.storageMap "zzz" = none) ∧
    ((tryBody { storage := ["zzz"], dry_run := false } cexBackend).1 = [] ∧
      main { storage := ["zzz"], dry_run := false } cexBackend =
        { events := [Event.criticalEv "Script failed in a horrible way"]
        , exitCode := some NAGIOS_EXIT_CRITICAL }) :=
  ⟨⟨rfl, by decide, by decide⟩,
    c9_unknown_storage_aborts { storage := ["zzz"], dry_run := false } cexBackend [] rfl "zzz"
      (by decide) (by decide)⟩

theorem filter_deliver_map (p : Event → Bool) (k : EntityKind) (s : String)
    (items : List Exc) (hp : ∀ kk ss ee, p (Event.deliver kk ss ee) = false) :
    (items.map (fun i => Event.deliver k s i.1)).filter p = [] := by
  induction items with
  | nil => rfl
  | cons i rest ih => simp [List.filter_cons, hp, ih]

theorem filterMap_deliver_map {α : Type} (f : Event → Option α) (k : EntityKind) (s : String)
    (items : List Exc) (hf : ∀ kk ss ee, f (Event.deliver kk ss ee) = none) :
    (items.map (fun i => Event.deliver k s i.1)).filterMap f = [] := by
  induction items with
  | nil => rfl
  | cons i rest ih => simp [List.filterMap_cons, hf, ih]

theorem notify_filesets_filter_fetch (s f : String) (items : List Exc) (d : Bool) :
    (notify_exceeding_filesets s f items d).filter isFetch = [] := by
  cases d with
  | true => rfl
  | false =>
    simp only [notify_exceeding_filesets, if_neg Bool.false_ne_true, List.filter_cons]
    simp [isFetch, filter_deliver_map isFetch .FILESET s items (fun _ _ _ => rfl)]

theorem notify_users_filter_fetch (s f : String) (items : List Exc) (d : Bool) :
    (notify_exceeding_users s f items d).filter isFetch = [] := by
  cases d with
  | true => rfl
  | false =>
    simp only [notify_exceeding_users, if_neg Bool.false_ne_true, List.filter_cons]
    simp [isFetch, filter_deliver_map isFetch .USR s items (fun _ _ _ => rfl)]

theorem notify_filesets_filter_epilogue (s f : String) (items : List Exc) (d : Bool) :
    (notify_exceeding_filesets s f items d).filter isEpilogue = [] := by
  cases d with
  | true => rfl
  | false =>
    simp only [notify_exceeding_filesets, if_neg Bool.false_ne_true, List.filter_cons]
    simp [isEpilogue, filter_deliver_map isEpilogue .FILESET s items (fun _ _ _ => rfl)]

theorem notify_users_filter_epilogue (s f : String) (items : List Exc) (d : Bool) :
    (notify_exceeding_users s f items d).filter isEpilogue = [] := by
  cases d with
  | true => rfl
  | false =>
    simp only [notify_exceeding_users, if_neg Bool.false_ne_true, List.filter_cons]
    simp [isEpilogue, filter_deliver_map isEpilogue .USR s items (fun _ _ _ => rfl)]

theorem notify_filesets_processedNames (s f : String) (items : List Exc) (d : Bool) :
    processedNames (notify_exceeding_filesets s f items d) = [] := by
  cases d with
  | true => rfl
  | false =>
    simp only [notify_exceeding_filesets, if_neg Bool.false_ne_true, processedNames,
      List.filterMap_cons]
    exact filterMap_deliver_map _ .FILESET s items (fun _ _ _ => rfl)

theorem notify_users_processedNames (s f : String) (items : List Exc) (d : Bool) :
    processedNames (notify_exceeding_users s f items d) = [] := by
  cases d with
  | true => rfl
  | false =>
    simp only [notify_exceeding_users, if_neg Bool.false_ne_true, processedNames,
      List.filterMap_cons]
    exact filterMap_deliver_map _ .USR s items (fun _ _ _ => rfl)

theorem processedNames_append (l1 l2 : List Event) :
    processedNames (l1 ++ l2) = processedNames l1 ++ processedNames l2 := by
  simp [processedNames, List.filterMap_append]

theorem runTargets_cons_unknown (B : Backend) (d : Bool) (fss : List String)
    (q : List (String × List RawEntry)) (name : String) (rest : List String)
    (st : LoopState) (hB : B.storageMap name = none) :
    runTargets B d fss q (name :: rest) st =
      ({ st with events := st.events ++ [Event.processTarget name] },
        some ("KeyError: " ++ name)) := by
  simp [runTargets, hB]

theorem runTargets_cons_skipMissing (B : Backend) (d : Bool) (fss : List String)
    (q : List (String × List RawEntry)) (name : String) (rest : List String)
    (st : LoopState) (info : StorageInfo)
    (hB : B.storageMap name = some info) (hmem : info.filesystem ∉ fss) :
    runTargets B d fss q (name :: rest) st =
      runTargets B d fss q rest
        { st with events := st.events ++
            [Event.processTarget name, Event.skipMissingFs name info.filesystem] } := by
  simp [runTargets, hB, hmem]

theorem runTargets_cons_skipNoQuota (B : Backend) (d : Bool) (fss : List String)
    (q : List (String × List RawEntry)) (name : String) (rest : List String)
    (st : LoopState) (info : StorageInfo)
    (hB : B.storageMap name = some info) (hmem : info.filesystem ∈ fss)
    (hlq : lookupQuota q info.filesystem = none) :
    runTargets B d fss q (name :: rest) st =
      runTargets B d fss q rest
        { st with events := st.events ++
            [Event.processTarget name, Event.skipNoQuota name info.filesystem] } := by
  simp [runTargets, hB, hmem, hlq]

theorem runTargets_cons_processed (B : Backend) (d : Bool) (fss : List String)
    (q : List (String × List RawEntry)) (name : String) (rest : List String)
    (st : LoopState) (info : StorageInfo) (raw : List RawEntry)
    (hB : B.storageMap name = some info) (hmem : info.filesystem ∈ fss)
    (hlq : lookupQuota q info.filesystem = some raw) :
    runTargets B d fss q (name :: rest) st =
      runTargets B d fss q rest
        { events := st.events ++ Event.processTarget name ::
            (notify_exceeding_filesets name info.filesystem
              (process_fileset_quota B.now
                (get_mmrepquota_maps raw info.data_replication_factor).2 d) d
             ++ notify_exceeding_users name info.filesystem
              (process_user_quota B.now
                (get_mmrepquota_maps raw info.data_replication_factor).1 d) d)
        , exFilesets := st.exFilesets ++ [(name,
            process_fileset_quota B.now
              (get_mmrepquota_maps raw info.data_replication_factor).2 d)]
        , exUsers := st.exUsers ++ [(name,
            process_user_quota B.now
              (get_mmrepquota_maps raw info.data_replication_factor).1 d)]
        , stats := setStat (setStat (setStat (setStat (setStat st.stats
            (name ++ "_fileset_critical") QUOTA_FILESETS_CRITICAL)
            (name ++ "_fileset")
              (if (process_fileset_quota B.now
                (get_mmrepquota_maps raw info.data_replication_factor).2 d).isEmpty
               then 0 else 1))
            (name ++ "_users_warning") QUOTA_USERS_WARNING)
            (name ++ "_users_critical") QUOTA_USERS_CRITICAL)
            (name ++ "_users")
              (if (process_user_quota B.now
                (get_mmrepquota_maps raw info.data_replication_factor).1 d).isEmpty
               then 0
               else (process_user_quota B.now
                 (get_mmrepquota_maps raw info.data_replication_factor).1 d).length) } := by
  simp [runTargets, hB, hmem, hlq]

/-- Trace shape of the per-target loop: it only appends events, appends no
quota fetch and no epilogue, and, when it completes, processes exactly the
given names in order. -/
theorem runTargets_events_shape (B : Backend) (d : Bool) (fss : List String)
    (q : List (String × List RawEntry)) :
    ∀ (names : List String) (st : LoopState),
      ∃ Δ, (runTargets B d fss q names st).1.events = st.events ++ Δ ∧
        Δ.filter isFetch = [] ∧ Δ.filter isEpilogue = [] ∧
        ((runTargets B d fss q names st).2 = none → processedNames Δ = names) := by
  intro names
  induction names with
  | nil =>
    intro st
    exact ⟨[], by simp [runTargets], rfl, rfl, fun _ => rfl⟩
  | cons name rest ih =>
    intro st
    cases hB : B.storageMap name with
    | none =>
      rw [runTargets_cons_unknown B d fss q name rest st hB]
      exact ⟨[Event.processTarget name], rfl, rfl, rfl, fun h => by simp at h⟩
    | some info =>
      by_cases hmem : info.filesystem ∈ fss
      · cases hlq : lookupQuota q info.filesystem with
        | none =>
          rw [runTargets_cons_skipNoQuota B d fss q name rest st info hB hmem hlq]
          obtain ⟨Δ2, he2, hf2, hep2, hp2⟩ :=
            ih { st with events := st.events ++
              [Event.processTarget name, Event.skipNoQuota name info.filesystem] }
          refine ⟨[Event.processTarget name, Event.skipNoQuota name info.filesystem] ++ Δ2,
            ?_, ?_, ?_, ?_⟩
          · rw [he2]; simp
          · simp [List.filter_append, hf2, isFetch, List.filter_cons]
          · simp [List.filter_append, hep2, isEpilogue, List.filter_cons]
          · intro h
            rw [processedNames_append, hp2 h]
            rfl
        | some raw =>
          rw [runTargets_cons_processed B d fss q name rest st info raw hB hmem hlq]
          obtain ⟨Δ2, he2, hf2, hep2, hp2⟩ :=
            ih { events := st.events ++ Event.processTarget name ::
                  (notify_exceeding_filesets name info.filesystem
                    (process_fileset_quota B.now
                      (get_mmrepquota_maps raw info.data_replication_factor).2 d) d
                   ++ notify_exceeding_users name info.filesystem
                    (process_user_quota B.now
                      (get_mmrepquota_maps raw info.data_replication_factor).1 d) d)
               , exFilesets := st.exFilesets ++ [(name,
                   process_fileset_quota B.now
                     (get_mmrepquota_maps raw info.data_replication_factor).2 d)]
               , exUsers := st.exUsers ++ [(name,
                   process_user_quota B.now
                     (get_mmrepquota_maps raw info.data_replication_factor).1 d)]
               , stats := setStat (setStat (setStat (setStat (setStat st.stats
                   (name ++ "_fileset_critical") QUOTA_FILESETS_CRITICAL)
                   (name ++ "_fileset")
                     (if (process_fileset_quota B.now
                       (get_mmrepquota_maps raw info.data_replication_factor).2 d).isEmpty
                      then 0 else 1))
                   (name ++ "_users_warning") QUOTA_USERS_WARNING)
                   (name ++ "_users_critical") QUOTA_USERS_CRITICAL)
                   (name ++ "_users")
                     (if (process_user_quota B.now
                       (get_mmrepquota_maps raw info.data_replication_factor).1 d).isEmpty
                      then 0
                      else (process_user_quota B.now
                        (get_mmrepquota_maps raw info.data_replication_factor).1 d).length) }
          refine ⟨Event.processTarget name ::
              (notify_exceeding_filesets name info.filesystem
                (process_fileset_quota B.now
                  (get_mmrepquota_maps raw info.data_replication_factor).2 d) d
               ++ notify_exceeding_users name info.filesystem
                (process_user_quota B.now
                  (get_mmrepquota_maps raw info.data_replication_factor).1 d) d) ++ Δ2,
            ?_, ?_, ?_, ?_⟩
          · rw [he2]; simp
          · simp [List.filter_append, hf2, isFetch, List.filter_cons,
              notify_filesets_filter_fetch, notify_users_filter_fetch]
          · simp [List.filter_append, hep2, isEpilogue, List.filter_cons,
              notify_filesets_filter_epilogue, notify_users_filter_epilogue]
          · intro h
            rw [processedNames_append]
            have hhead : processedNames (Event.processTarget name ::
                (notify_exceeding_filesets name info.filesystem
                  (process_fileset_quota B.now
                    (get_mmrepquota_maps raw info.data_replication_factor).2 d) d
                 ++ notify_exceeding_users name info.filesystem
                  (process_user_quota B.now
                    (get_mmrepquota_maps raw info.data_replication_factor).1 d) d)) =
                [name] := by
              simp only [processedNames, List.filterMap_cons, List.filterMap_append]
              rw [show (List.filterMap (fun e => match e with
                | Event.processTarget n => some n | _ => none)
                (notify_exceeding_filesets name info.filesystem
                  (process_fileset_quota B.now
                    (get_mmrepquota_maps raw info.data_replication_factor).2 d) d)) =
                  processedNames (notify_exceeding_filesets name info.filesystem
                    (process_fileset_quota B.now
                      (get_mmrepquota_maps raw info.data_replication_factor).2 d) d) from rfl]
              rw [show (List.filterMap (fun e => match e with
                | Event.processTarget n => some n | _ => none)
                (notify_exceeding_users name info.filesystem
                  (process_user_quota B.now
                    (get_mmrepquota_maps raw info.data_replication_factor).1 d) d)) =
                  processedNames (notify_exceeding_users name info.filesystem
                    (process_user_quota B.now
                      (get_mmrepquota_maps raw info.data_replication_factor).1 d) d) from rfl]
              rw [notify_filesets_processedNames, notify_users_processedNames]
              rfl
            rw [hhead, hp2 h]
            rfl
      · rw [runTargets_cons_skipMissing B d fss q name rest st info hB hmem]
        obtain ⟨Δ2, he2, hf2, hep2, hp2⟩ :=
          ih { st with events := st.events ++
            [Event.processTarget name, Event.skipMissingFs name info.filesystem] }
        refine ⟨[Event.processTarget name, Event.skipMissingFs name info.filesystem] ++ Δ2,
          ?_, ?_, ?_, ?_⟩
        · rw [he2]; simp
        · simp [List.filter_append, hf2, isFetch, List.filter_cons]
        · simp [List.filter_append, hep2, isEpilogue, List.filter_cons]
        · intro h
          rw [processedNames_append, hp2 h]
          rfl

/-- The trace of the try body never contains a monitoring epilogue: the
epilogue is emitted by `main` alone, after the body has completed. -/
theorem tryBody_trace_no_epilogue (opts : Options) (B : Backend) :
    (tryBody opts B).1.filter isEpilogue = [] := by
  unfold tryBody
  split
  · rfl
  split
  · rfl
  split
  · rfl
  rename_i fss hlf
  split
  · rfl
  split
  · rfl
  rename_i q hq
  obtain ⟨Δ, he, _, hep, _⟩ := runTargets_events_shape B opts.dry_run fss q opts.storage
    { events := [Event.fetchQuota], exFilesets := [], exUsers := [], stats := [] }
  split
  · rename_i st e2 heq
    rw [heq] at he
    simp only [] at he ⊢
    rw [he]
    simp [List.filter_append, hep, isEpilogue, List.filter_cons]
  · rename_i st heq
    rw [heq] at he
    simp only [] at he ⊢
    rw [he]
    simp [List.filter_append, hep, isEpilogue, List.filter_cons]

/-- Claim C2: any exception escaping the scan cycle aborts it as a whole:
`main` reports the fixed generic critical summary (not the exception
detail), exits with the Nagios critical status, and the epilogue is never
reached — the trace is frozen at the failure point. -/
theorem c2_exception_aborts (opts : Options) (B : Backend) (evs : List Event) (e : String)
    (herr : tryBody opts B = (evs, .error e)) :
    main opts B = { events := evs ++ [Event.criticalEv "Script failed in a horrible way"]
                  , exitCode := some NAGIOS_EXIT_CRITICAL } ∧
    (main opts B).events.filter isEpilogue = [] := by
  have hne := tryBody_trace_no_epilogue opts B
  rw [herr] at hne
  simp only [] at hne
  constructor
  · unfold main
    rw [herr]
  · unfold main
    rw [herr]
    simp [List.filter_append, List.filter_cons, isEpilogue, hne]

/-- Witness for C2 at a concrete backend whose raw-quota query fails. -/
theorem c2_witness :
    (tryBody { storage := ["s"], dry_run := false } failBackend =
        ([], .error "mmrepquota failed")) ∧
    (main { storage := ["s"], dry_run := false } failBackend =
        { events := [] ++ [Event.criticalEv "Script failed in a horrible way"]
        , exitCode := some NAGIOS_EXIT_CRITICAL } ∧
      (main { storage := ["s"], dry_run := false } failBackend).events.filter isEpilogue = []) :=
  ⟨rfl, c2_exception_aborts { storage := ["s"], dry_run := false } failBackend []
    "mmrepquota failed" rfl⟩

/-- Claim C7: on a completed cycle the raw quota report is fetched exactly
once, before the per-target loop, and the targets are then evaluated
sequentially in configuration order. -/
theorem c7_single_fetch_in_order (opts : Options) (B : Backend)
    (u : List (Nat × String)) (tfs fss fsets : List String)
    (q : List (String × List RawEntry)) (res : BodyRes)
    (hu : B.uidMapResult = .ok u)
    (htf : targetFilesystems B opts.storage = .ok tfs)
    (hlf : B.listFilesystems tfs = .ok fss)
    (hfs : B.listFilesetsResult = .ok fsets)
    (hq : B.listQuotaResult = .ok q)
    (hok : (tryBody opts B).2 = .ok res) :
    ∃ Δ, (tryBody opts B).1 = Event.fetchQuota :: Δ ∧
      Δ.filter isFetch = [] ∧ processedNames Δ = opts.storage := by
  unfold tryBody at hok ⊢
  simp only [hu, htf, hlf, hfs, hq] at hok ⊢
  obtain ⟨Δ, he, hf, _, hp⟩ := runTargets_events_shape B opts.dry_run fss q opts.storage
    { events := [Event.fetchQuota], exFilesets := [], exUsers := [], stats := [] }
  obtain ⟨⟨st, o⟩, hr⟩ : ∃ p, runTargets B opts.dry_run fss q opts.storage
      { events := [Event.fetchQuota], exFilesets := [], exUsers := [], stats := [] } = p :=
    ⟨_, rfl⟩
  rw [hr] at he hok ⊢
  cases o with
  | some e2 => simp at hok
  | none =>
    simp only [] at he hok ⊢
    have hsucc := hp (by rw [hr])
    exact ⟨Δ, by rw [he]; rfl, hf, hsucc⟩

/-- Witness for C7 on a concrete completed two-target cycle. -/
theorem c7_witness :
    (twoTargetBackend.uidMapResult = .ok [] ∧
      targetFilesystems twoTargetBackend ["a", "b"] = .ok ["fa", "fb"] ∧
      twoTargetBackend.listFilesystems ["fa", "fb"] = .ok ["fb"] ∧
      twoTargetBackend.listFilesetsResult = .ok [] ∧
      twoTargetBackend.listQuotaResult =
        .ok [("fb", [ { entity := "u1", kind := .USR, record := hardBreachRecord } ])] ∧
      (tryBody { storage := ["a", "b"], dry_run := false } twoTargetBackend).2 =
        .ok { exFilesets := [("b", [])]
            , exUsers := [("b", [("u1", hardBreachRecord, ExceedKind.block)])]
            , stats := [ ("b" ++ "_fileset_critical", 1), ("b" ++ "_fileset", 0)
                       , ("b" ++ "_users_warning", 20), ("b" ++ "_users_critical", 40)
                       , ("b" ++ "_users", 1) ] }) ∧
    ∃ Δ, (tryBody { storage := ["a", "b"], dry_run := false } twoTargetBackend).1 =
        Event.fetchQuota :: Δ ∧
      Δ.filter isFetch = [] ∧ processedNames Δ = ["a", "b"] :=
  ⟨⟨rfl, rfl, rfl, rfl, rfl, rfl⟩,
    c7_single_fetch_in_order { storage := ["a", "b"], dry_run := false } twoTargetBackend
      [] ["fa", "fb"] ["fb"] [] [("fb", [ { entity := "u1", kind := .USR, record := hardBreachRecord } ])]
      { exFilesets := [("b", [])]
      , exUsers := [("b", [("u1", hardBreachRecord, ExceedKind.block)])]
      , stats := [ ("b" ++ "_fileset_critical", 1), ("b" ++ "_fileset", 0)
                 , ("b" ++ "_users_warning", 20), ("b" ++ "_users_critical", 40)
                 , ("b" ++ "_users", 1) ] }
      rfl rfl rfl rfl rfl rfl⟩

/-- The per-target loop splits at any decomposition of the name list:
running the concatenation equals running the first part, then, if it did
not abort, the second from the reached state. -/
theorem runTargets_append (B : Backend) (d : Bool) (fss : List String)
    (q : List (String × List RawEntry)) :
    ∀ (l1 l2 : List String) (st : LoopState),
      runTargets B d fss q (l1 ++ l2) st =
        match runTargets B d fss q l1 st with
        | (st1, some e) => (st1, some e)
        | (st1, none) => runTargets B d fss q l2 st1 := by
  intro l1
  induction l1 with
  | nil => intro l2 st; simp [runTargets]
  | cons name rest ih =>
    intro l2 st
    cases hB : B.storageMap name with
    | none =>
      rw [List.cons_append, runTargets_cons_unknown B d fss q name (rest ++ l2) st hB,
        runTargets_cons_unknown B d fss q name rest st hB]
    | some info =>
      by_cases hmem : info.filesystem ∈ fss
      · cases hlq : lookupQuota q info.filesystem with
        | none =>
          rw [List.cons_append,
            runTargets_cons_skipNoQuota B d fss q name (rest ++ l2) st info hB hmem hlq,
            runTargets_cons_skipNoQuota B d fss q name rest st info hB hmem hlq, ih]
        | some raw =>
          rw [List.cons_append,
            runTargets_cons_processed B d fss q name (rest ++ l2) st info raw hB hmem hlq,
            runTargets_cons_processed B d fss q name rest st info raw hB hmem hlq, ih]
      · rw [List.cons_append,
          runTargets_cons_skipMissing B d fss q name (rest ++ l2) st info hB hmem,
          runTargets_cons_skipMissing B d fss q name rest st info hB hmem, ih]

/-- The per-target loop only appends to the trace: earlier events persist. -/
theorem runTargets_events_mono (B : Backend) (d : Bool) (fss : List String)
    (q : List (String × List RawEntry)) (names : List String) (st : LoopState)
    {e : Event} (he : e ∈ st.events) :
    e ∈ (runTargets B d fss q names st).1.events := by
  obtain ⟨Δ, hΔ, _, _, _⟩ := runTargets_events_shape B d fss q names st
  rw [hΔ]
  exact List.mem_append_left _ he

/-- Claim C8: on a completed cycle, each processed target's notification
dispatches appear in the body trace, and the stats mapping is handed to the
monitoring epilogue only once, as the very last event, after every
notification dispatch. -/
theorem c8_notify_before_epilogue (opts : Options) (B : Backend)
    (u : List (Nat × String)) (tfs fss fsets : List String)
    (q : List (String × List RawEntry)) (res : BodyRes)
    (l1 l2 : List String) (name : String) (info : StorageInfo) (raw : List RawEntry)
    (hu : B.uidMapResult = .ok u)
    (htf : targetFilesystems B opts.storage = .ok tfs)
    (hlf : B.listFilesystems tfs = .ok fss)
    (hfs : B.listFilesetsResult = .ok fsets)
    (hq : B.listQuotaResult = .ok q)
    (hsplit : opts.storage = l1 ++ name :: l2)
    (hB : B.storageMap name = some info)
    (hmem : info.filesystem ∈ fss)
    (hlq : lookupQuota q info.filesystem = some raw)
    (hok : (tryBody opts B).2 = .ok res) :
    ∃ evs, (main opts B).events = evs ++ [Event.epilogueEv "quota check completed" res.stats] ∧
      evs.filter isEpilogue = [] ∧
      (∃ itemsF dF, Event.notifyFilesets name info.filesystem itemsF dF ∈ evs) ∧
      (∃ itemsU dU, Event.notifyUsers name info.filesystem itemsU dU ∈ evs) := by
  have hne := tryBody_trace_no_epilogue opts B
  unfold tryBody at hok hne
  unfold main
  unfold tryBody
  simp only [hu, htf, hlf, hfs, hq] at hok hne ⊢
  obtain ⟨⟨st, o⟩, hr⟩ : ∃ p, runTargets B opts.dry_run fss q opts.storage
      { events := [Event.fetchQuota], exFilesets := [], exUsers := [], stats := [] } = p :=
    ⟨_, rfl⟩
  rw [hr] at hok hne ⊢
  cases o with
  | some e2 => simp at hok
  | none =>
    simp only [] at hok hne ⊢
    refine ⟨st.events, ?_, hne, ?_, ?_⟩
    · have hres : res = { exFilesets := st.exFilesets, exUsers := st.exUsers, stats := st.stats } := by
        cases hok
        rfl
      rw [hres]
    · -- the notifyFilesets event of the processed target is in the loop trace
      rw [hsplit] at hr
      rw [runTargets_append] at hr
      obtain ⟨⟨st1, o1⟩, hr1⟩ : ∃ p, runTargets B opts.dry_run fss q l1
          { events := [Event.fetchQuota], exFilesets := [], exUsers := [], stats := [] } = p :=
        ⟨_, rfl⟩
      rw [hr1] at hr
      cases o1 with
      | some e2 => simp only [] at hr; cases hr
      | none =>
        simp only [] at hr
        rw [runTargets_cons_processed B opts.dry_run fss q name l2 st1 info raw hB hmem hlq] at hr
        have hmemev : Event.notifyFilesets name info.filesystem
            (process_fileset_quota B.now
              (get_mmrepquota_maps raw info.data_replication_factor).2 opts.dry_run)
            opts.dry_run ∈ (runTargets B opts.dry_run fss q l2
              { events := st1.events ++ Event.processTarget name ::
                  (notify_exceeding_filesets name info.filesystem
                    (process_fileset_quota B.now
                      (get_mmrepquota_maps raw info.data_replication_factor).2 opts.dry_run)
                    opts.dry_run
                   ++ notify_exceeding_users name info.filesystem
                    (process_user_quota B.now
                      (get_mmrepquota_maps raw info.data_replication_factor).1 opts.dry_run)
                    opts.dry_run)
              , exFilesets := st1.exFilesets ++ [(name,
                  process_fileset_quota B.now
                    (get_mmrepquota_maps raw info.data_replication_factor).2 opts.dry_run)]
              , exUsers := st1.exUsers ++ [(name,
                  process_user_quota B.now
                    (get_mmrepquota_maps raw info.data_replication_factor).1 opts.dry_run)]
              , stats := setStat (setStat (setStat (setStat (setStat st1.stats
                  (name ++ "_fileset_critical") QUOTA_FILESETS_CRITICAL)
                  (name ++ "_fileset")
                    (if (process_fileset_quota B.now
                      (get_mmrepquota_maps raw info.data_replication_factor).2 opts.dry_run).isEmpty
                     then 0 else 1))
                  (name ++ "_users_warning") QUOTA_USERS_WARNING)
                  (name ++ "_users_critical") QUOTA_USERS_CRITICAL)
                  (name ++ "_users")
                    (if (process_user_quota B.now
                      (get_mmrepquota_maps raw info.data_replication_factor).1 opts.dry_run).isEmpty
                     then 0
                     else (process_user_quota B.now
                       (get_mmrepquota_maps raw
                         info.data_replication_factor).1 opts.dry_run).length) }).1.events := by
          apply runTargets_events_mono
          simp [notify_exceeding_filesets]
        rw [hr] at hmemev
        exact ⟨_, _, hmemev⟩
    · rw [hsplit] at hr
      rw [runTargets_append] at hr
      obtain ⟨⟨st1, o1⟩, hr1⟩ : ∃ p, runTargets B opts.dry_run fss q l1
          { events := [Event.fetchQuota], exFilesets := [], exUsers := [], stats := [] } = p :=
        ⟨_, rfl⟩
      rw [hr1] at hr
      cases o1 with
      | some e2 => simp only [] at hr; cases hr
      | none =>
        simp only [] at hr
        rw [runTargets_cons_processed B opts.dry_run fss q name l2 st1 info raw hB hmem hlq] at hr
        have hmemev : Event.notifyUsers name info.filesystem
            (process_user_quota B.now
              (get_mmrepquota_maps raw info.data_replication_factor).1 opts.dry_run)
            opts.dry_run ∈ (runTargets B opts.dry_run fss q l2
              { events := st1.events ++ Event.processTarget name ::
                  (notify_exceeding_filesets name info.filesystem
                    (process_fileset_quota B.now
                      (get_mmrepquota_maps raw info.data_replication_factor).2 opts.dry_run)
                    opts.dry_run
                   ++ notify_exceeding_users name info.filesystem
                    (process_user_quota B.now
                      (get_mmrepquota_maps raw info.data_replication_factor).1 opts.dry_run)
                    opts.dry_run)
              , exFilesets := st1.exFilesets ++ [(name,
                  process_fileset_quota B.now
                    (get_mmrepquota_maps raw info.data_replication_factor).2 opts.dry_run)]
              , exUsers := st1.exUsers ++ [(name,
                  process_user_quota B.now
                    (get_mmrepquota_maps raw info.data_replication_factor).1 opts.dry_run)]
              , stats := setStat (setStat (setStat (setStat (setStat st1.stats
                  (name ++ "_fileset_critical") QUOTA_FILESETS_CRITICAL)
                  (name ++ "_fileset")
                    (if (process_fileset_quota B.now
                      (get_mmrepquota_maps raw info.data_replication_factor).2 opts.dry_run).isEmpty
                     then 0 else 1))
                  (name ++ "_users_warning") QUOTA_USERS_WARNING)
                  (name ++ "_users_critical") QUOTA_USERS_CRITICAL)
                  (name ++ "_users")
                    (if (process_user_quota B.now
                      (get_mmrepquota_maps raw info.data_replication_factor).1 opts.dry_run).isEmpty
                     then 0
                     else (process_user_quota B.now
                       (get_mmrepquota_maps raw
                         info.data_replication_factor).1 opts.dry_run).length) }).1.events := by
          apply runTargets_events_mono
          simp [notify_exceeding_filesets, notify_exceeding_users]
        rw [hr] at hmemev
        exact ⟨_, _, hmemev⟩

/-- Witness for C8 on a concrete completed two-target cycle. -/
theorem c8_witness :
    (twoTargetBackend.uidMapResult = .ok [] ∧
      targetFilesystems twoTargetBackend ["a", "b"] = .ok ["fa", "fb"] ∧
      twoTargetBackend.listFilesystems ["fa", "fb"] = .ok ["fb"] ∧
      twoTargetBackend.listFilesetsResult = .ok [] ∧
      twoTargetBackend.listQuotaResult =
        .ok [("fb", [ { entity := "u1", kind := .USR, record := hardBreachRecord } ])] ∧
      (["a", "b"] : List String) = ["a"] ++ "b" :: [] ∧
      twoTargetBackend.storageMap "b" = some { filesystem := "fb", data_replication_factor := 1 } ∧
      "fb" ∈ ["fb"] ∧
      lookupQuota [("fb", [ { entity := "u1", kind := .USR, record := hardBreachRecord } ])] "fb" =
        some [ { entity := "u1", kind := .USR, record := hardBreachRecord } ] ∧
      (tryBody { storage := ["a", "b"], dry_run := false } twoTargetBackend).2 =
        .ok { exFilesets := [("b", [])]
            , exUsers := [("b", [("u1", hardBreachRecord, ExceedKind.block)])]
            , stats := [ ("b" ++ "_fileset_critical", 1), ("b" ++ "_fileset", 0)
                       , ("b" ++ "_users_warning", 20), ("b" ++ "_users_critical", 40)
                       , ("b" ++ "_users", 1) ] }) ∧
    ∃ evs, (main { storage := ["a", "b"], dry_run := false } twoTargetBackend).events =
        evs ++ [Event.epilogueEv "quota check completed"
          ({ exFilesets := [("b", [])]
           , exUsers := [("b", [("u1", hardBreachRecord, ExceedKind.block)])]
           , stats := [ ("b" ++ "_fileset_critical", 1), ("b" ++ "_fileset", 0)
                      , ("b" ++ "_users_warning", 20), ("b" ++ "_users_critical", 40)
                      , ("b" ++ "_users", 1) ] } : BodyRes).stats] ∧
      evs.filter isEpilogue = [] ∧
      (∃ itemsF dF, Event.notifyFilesets "b" "fb" itemsF dF ∈ evs) ∧
      (∃ itemsU dU, Event.notifyUsers "b" "fb" itemsU dU ∈ evs) :=
  ⟨⟨rfl, rfl, rfl, rfl, rfl, rfl, rfl, by decide, rfl, rfl⟩,
    c8_notify_before_epilogue { storage := ["a", "b"], dry_run := false } twoTargetBackend
      [] ["fa", "fb"] ["fb"] [] [("fb", [ { entity := "u1", kind := .USR, record := hardBreachRecord } ])]
      { exFilesets := [("b", [])]
      , exUsers := [("b", [("u1", hardBreachRecord, ExceedKind.block)])]
      , stats := [ ("b" ++ "_fileset_critical", 1), ("b" ++ "_fileset", 0)
                 , ("b" ++ "_users_warning", 20), ("b" ++ "_users_critical", 40)
                 , ("b" ++ "_users", 1) ] }
      ["a"] [] "b" { filesystem := "fb", data_replication_factor := 1 }
      [ { entity := "u1", kind := .USR, record := hardBreachRecord } ]
      rfl rfl rfl rfl rfl rfl rfl (by decide) rfl rfl⟩

/-- Claim C1: with two configured targets whose names resolve, if the first
target's filesystem is absent from the backend's known-filesystem set or
from the raw quota report, the orchestrator records the skip in the trace,
records no stats or exceeding entries for it, and still fully processes the
second target: the completed cycle's result contains exactly the second
target's exceeding entries and its five stats entries. -/
theorem c1_missing_target_skipped (B : Backend) (s1 s2 : String) (dry : Bool)
    (info1 info2 : StorageInfo) (u : List (Nat × String)) (fss fsets : List String)
    (q : List (String × List RawEntry)) (raw2 : List RawEntry)
    (hu : B.uidMapResult = .ok u)
    (h1 : B.storageMap s1 = some info1)
    (h2 : B.storageMap s2 = some info2)
    (hlf : B.listFilesystems [info1.filesystem, info2.filesystem] = .ok fss)
    (hfs : B.listFilesetsResult = .ok fsets)
    (hq : B.listQuotaResult = .ok q)
    (hskip : info1.filesystem ∉ fss ∨ lookupQuota q info1.filesystem = none)
    (hmem2 : info2.filesystem ∈ fss)
    (hlq2 : lookupQuota q info2.filesystem = some raw2) :
    (tryBody { storage := [s1, s2], dry_run := dry } B).2 = .ok
      { exFilesets := [(s2, process_fileset_quota B.now
          (get_mmrepquota_maps raw2 info2.data_replication_factor).2 dry)]
      , exUsers := [(s2, process_user_quota B.now
          (get_mmrepquota_maps raw2 info2.data_replication_factor).1 dry)]
      , stats := [ (s2 ++ "_fileset_critical", QUOTA_FILESETS_CRITICAL)
                 , (s2 ++ "_fileset", if (process_fileset_quota B.now
                     (get_mmrepquota_maps raw2 info2.data_replication_factor).2 dry).isEmpty
                     then 0 else 1)
                 , (s2 ++ "_users_warning", QUOTA_USERS_WARNING)
                 , (s2 ++ "_users_critical", QUOTA_USERS_CRITICAL)
                 , (s2 ++ "_users", if (process_user_quota B.now
                     (get_mmrepquota_maps raw2 info2.data_replication_factor).1 dry).isEmpty
                     then 0
                     else (process_user_quota B.now
                       (get_mmrepquota_maps raw2 info2.data_replication_factor).1 dry).length) ] } ∧
    (Event.skipMissingFs s1 info1.filesystem ∈
        (tryBody { storage := [s1, s2], dry_run := dry } B).1 ∨
      Event.skipNoQuota s1 info1.filesystem ∈
        (tryBody { storage := [s1, s2], dry_run := dry } B).1) := by
  have htf : targetFilesystems B [s1, s2] = .ok [info1.filesystem, info2.filesystem] := by
    simp [targetFilesystems, h1, h2]
  unfold tryBody
  simp only [hu, htf, hlf, hfs, hq]
  rcases hskip with hnm | hlqn
  · rw [show ([s1, s2] : List String) = s1 :: [s2] from rfl,
      runTargets_cons_skipMissing B dry fss q s1 [s2] _ info1 h1 hnm,
      runTargets_cons_processed B dry fss q s2 [] _ info2 raw2 h2 hmem2 hlq2]
    constructor
    · simp [runTargets, setStat_five]
    · left
      simp [runTargets]
  · by_cases hm1 : info1.filesystem ∈ fss
    · rw [show ([s1, s2] : List String) = s1 :: [s2] from rfl,
        runTargets_cons_skipNoQuota B dry fss q s1 [s2] _ info1 h1 hm1 hlqn,
        runTargets_cons_processed B dry fss q s2 [] _ info2 raw2 h2 hmem2 hlq2]
      constructor
      · simp [runTargets, setStat_five]
      · right
        simp [runTargets]
    · rw [show ([s1, s2] : List String) = s1 :: [s2] from rfl,
        runTargets_cons_skipMissing B dry fss q s1 [s2] _ info1 h1 hm1,
        runTargets_cons_processed B dry fss q s2 [] _ info2 raw2 h2 hmem2 hlq2]
      constructor
      · simp [runTargets, setStat_five]
      · left
        simp [runTargets]

/-- Witness for C1 on a concrete two-target backend whose first target's
filesystem is not mounted. -/
theorem c1_witness :
    (twoTargetBackend.uidMapResult = .ok [] ∧
      twoTargetBackend.storageMap "a" = some { filesystem := "fa", data_replication_factor := 1 } ∧
      twoTargetBackend.storageMap "b" = some { filesystem := "fb", data_replication_factor := 1 } ∧
      twoTargetBackend.listFilesystems ["fa", "fb"] = .ok ["fb"] ∧
      twoTargetBackend.listFilesetsResult = .ok [] ∧
      twoTargetBackend.listQuotaResult =
        .ok [("fb", [ { entity := "u1", kind := .USR, record := hardBreachRecord } ])] ∧
      (("fa" : String) ∉ (["fb"] : List String) ∨
        lookupQuota [("fb", [ { entity := "u1", kind := .USR, record := hardBreachRecord } ])] "fa" = none) ∧
      ("fb" : String) ∈ (["fb"] : List String) ∧
      lookupQuota [("fb", [ { entity := "u1", kind := .USR, record := hardBreachRecord } ])] "fb" =
        some [ { entity := "u1", kind := .USR, record := hardBreachRecord } ]) ∧
    ((tryBody { storage := ["a", "b"], dry_run := false } twoTargetBackend).2 = .ok
      { exFilesets := [("b", process_fileset_quota twoTargetBackend.now
          (get_mmrepquota_maps [ { entity := "u1", kind := .USR, record := hardBreachRecord } ] 1).2 false)]
      , exUsers := [("b", process_user_quota twoTargetBackend.now
          (get_mmrepquota_maps [ { entity := "u1", kind := .USR, record := hardBreachRecord } ] 1).1 false)]
      , stats := [ ("b" ++ "_fileset_critical", QUOTA_FILESETS_CRITICAL)
                 , ("b" ++ "_fileset", if (process_fileset_quota twoTargetBackend.now
                     (get_mmrepquota_maps [ { entity := "u1", kind := .USR, record := hardBreachRecord } ] 1).2 false).isEmpty
                     then 0 else 1)
                 , ("b" ++ "_users_warning", QUOTA_USERS_WARNING)
                 , ("b" ++ "_users_critical", QUOTA_USERS_CRITICAL)
                 , ("b" ++ "_users", if (process_user_quota twoTargetBackend.now
                     (get_mmrepquota_maps [ { entity := "u1", kind := .USR, record := hardBreachRecord } ] 1).1 false).isEmpty
                     then 0
                     else (process_user_quota twoTargetBackend.now
                       (get_mmrepquota_maps [ { entity := "u1", kind := .USR, record := hardBreachRecord } ] 1).1 false).length) ] } ∧
    (Event.skipMissingFs "a" "fa" ∈
        (tryBody { storage := ["a", "b"], dry_run := false } twoTargetBackend).1 ∨
      Event.skipNoQuota "a" "fa" ∈
        (tryBody { storage := ["a", "b"], dry_run := false } twoTargetBackend).1)) :=
  ⟨⟨rfl, rfl, rfl, rfl, rfl, rfl, Or.inl (by decide), by decide, rfl⟩,
    c1_missing_target_skipped twoTargetBackend "a" "b" false
      { filesystem := "fa", data_replication_factor := 1 }
      { filesystem := "fb", data_replication_factor := 1 }
      [] ["fb"] [] [("fb", [ { entity := "u1", kind := .USR, record := hardBreachRecord } ])]
      [ { entity := "u1", kind := .USR, record := hardBreachRecord } ]
      rfl rfl rfl rfl rfl rfl (Or.inl (by decide)) (by decide) rfl⟩

theorem isEmpty_ite_length {α : Type} (l : List α) :
    (if l.isEmpty then 0 else l.length) = l.length := by
  cases l <;> simp

theorem string_append_right_cancel {a b s : String} (h : a ++ s = b ++ s) : a = b := by
  have hd := congrArg String.data h
  simp only [String.data_append] at hd
  exact String.ext (List.append_cancel_right hd)

/-- Two appended strings differ whenever their suffixes differ on the last
`min` characters: the common tail of the concatenations is determined by
the suffixes alone. -/
theorem string_append_suffix_ne (n1 n2 s1 s2 : String)
    (h : List.take (min s1.data.length s2.data.length) s1.data.reverse ≠
      List.take (min s1.data.length s2.data.length) s2.data.reverse) :
    n1 ++ s1 ≠ n2 ++ s2 := by
  intro hc
  have hd := congrArg String.data hc
  simp only [String.data_append] at hd
  have hrev := congrArg List.reverse hd
  simp only [List.reverse_append] at hrev
  apply h
  have h1 : List.take (min s1.data.length s2.data.length) (s1.data.reverse ++ n1.data.reverse) =
      List.take (min s1.data.length s2.data.length) s1.data.reverse := by
    apply List.take_append_of_le_length
    simp
  have h2 : List.take (min s1.data.length s2.data.length) (s2.data.reverse ++ n2.data.reverse) =
      List.take (min s1.data.length s2.data.length) s2.data.reverse := by
    apply List.take_append_of_le_length
    simp
  rw [← h1, hrev, h2]

/-- Reading back the five stats keys the loop body writes for one target. -/
theorem getStat_after_target_writes (stats0 : Stats) (name : String)
    (vfc vf vuw vuc vu : Nat) :
    getStat (setStat (setStat (setStat (setStat (setStat stats0
        (name ++ "_fileset_critical") vfc) (name ++ "_fileset") vf)
        (name ++ "_users_warning") vuw) (name ++ "_users_critical") vuc)
        (name ++ "_users") vu) (name ++ "_fileset_critical") = some vfc ∧
    getStat (setStat (setStat (setStat (setStat (setStat stats0
        (name ++ "_fileset_critical") vfc) (name ++ "_fileset") vf)
        (name ++ "_users_warning") vuw) (name ++ "_users_critical") vuc)
        (name ++ "_users") vu) (name ++ "_fileset") = some vf ∧
    getStat (setStat (setStat (setStat (setStat (setStat stats0
        (name ++ "_fileset_critical") vfc) (name ++ "_fileset") vf)
        (name ++ "_users_warning") vuw) (name ++ "_users_critical") vuc)
        (name ++ "_users") vu) (name ++ "_users_warning") = some vuw ∧
    getStat (setStat (setStat (setStat (setStat (setStat stats0
        (name ++ "_fileset_critical") vfc) (name ++ "_fileset") vf)
        (name ++ "_users_warning") vuw) (name ++ "_users_critical") vuc)
        (name ++ "_users") vu) (name ++ "_users_critical") = some vuc ∧
    getStat (setStat (setStat (setStat (setStat (setStat stats0
        (name ++ "_fileset_critical") vfc) (name ++ "_fileset") vf)
        (name ++ "_users_warning") vuw) (name ++ "_users_critical") vuc)
        (name ++ "_users") vu) (name ++ "_users") = some vu := by
  have h21 := string_append_ne name "_fileset" "_fileset_critical" (by decide)
  have h31 := string_append_ne name "_users_warning" "_fileset_critical" (by decide)
  have h41 := string_append_ne name "_users_critical" "_fileset_critical" (by decide)
  have h51 := string_append_ne name "_users" "_fileset_critical" (by decide)
  have h32 := string_append_ne name "_users_warning" "_fileset" (by decide)
  have h42 := string_append_ne name "_users_critical" "_fileset" (by decide)
  have h52 := string_append_ne name "_users" "_fileset" (by decide)
  have h43 := string_append_ne name "_users_critical" "_users_warning" (by decide)
  have h53 := string_append_ne name "_users" "_users_warning" (by decide)
  have h54 := string_append_ne name "_users" "_users_critical" (by decide)
  refine ⟨?_, ?_, ?_, ?_, ?_⟩
  · rw [getStat_setStat_ne _ h51, getStat_setStat_ne _ h41,
      getStat_setStat_ne _ h31, getStat_setStat_ne _ h21, getStat_setStat_same]
  · rw [getStat_setStat_ne _ h52, getStat_setStat_ne _ h42,
      getStat_setStat_ne _ h32, getStat_setStat_same]
  · rw [getStat_setStat_ne _ h53, getStat_setStat_ne _ h43, getStat_setStat_same]
  · rw [getStat_setStat_ne _ h54, getStat_setStat_same]
  · rw [getStat_setStat_same]

/-- Once the five stats entries of a processed target hold their canonical
values, running the loop over any further names keeps them: a different
target writes only keys with a different name or a different suffix, and a
repeated occurrence of the same name deterministically rewrites the same
values. -/
theorem runTargets_preserves_target_stats (B : Backend) (d : Bool) (fss : List String)
    (q : List (String × List RawEntry)) (name : String) (info : StorageInfo)
    (raw : List RawEntry)
    (hB : B.storageMap name = some info)
    (hlq : lookupQuota q info.filesystem = some raw) :
    ∀ (names : List String) (st : LoopState),
      getStat st.stats (name ++ "_fileset_critical") = some QUOTA_FILESETS_CRITICAL →
      getStat st.stats (name ++ "_fileset") =
        some (if (process_fileset_quota B.now
          (get_mmrepquota_maps raw info.data_replication_factor).2 d).isEmpty
          then 0 else 1) →
      getStat st.stats (name ++ "_users_warning") = some QUOTA_USERS_WARNING →
      getStat st.stats (name ++ "_users_critical") = some QUOTA_USERS_CRITICAL →
      getStat st.stats (name ++ "_users") =
        some (process_user_quota B.now
          (get_mmrepquota_maps raw info.data_replication_factor).1 d).length →
      (getStat (runTargets B d fss q names st).1.stats (name ++ "_fileset_critical") =
          some QUOTA_FILESETS_CRITICAL ∧
        getStat (runTargets B d fss q names st).1.stats (name ++ "_fileset") =
          some (if (process_fileset_quota B.now
            (get_mmrepquota_maps raw info.data_replication_factor).2 d).isEmpty
            then 0 else 1) ∧
        getStat (runTargets B d fss q names st).1.stats (name ++ "_users_warning") =
          some QUOTA_USERS_WARNING ∧
        getStat (runTargets B d fss q names st).1.stats (name ++ "_users_critical") =
          some QUOTA_USERS_CRITICAL ∧
        getStat (runTargets B d fss q names st).1.stats (name ++ "_users") =
          some (process_user_quota B.now
            (get_mmrepquota_maps raw info.data_replication_factor).1 d).length) := by
  intro names
  induction names with
  | nil =>
    intro st h1 h2 h3 h4 h5
    simp only [runTargets]
    exact ⟨h1, h2, h3, h4, h5⟩
  | cons n rest ih =>
    intro st h1 h2 h3 h4 h5
    cases hB2 : B.storageMap n with
    | none =>
      rw [runTargets_cons_unknown B d fss q n rest st hB2]
      exact ⟨h1, h2, h3, h4, h5⟩
    | some info2 =>
      by_cases hmem2 : info2.filesystem ∈ fss
      · cases hlq2 : lookupQuota q info2.filesystem with
        | none =>
          rw [runTargets_cons_skipNoQuota B d fss q n rest st info2 hB2 hmem2 hlq2]
          exact ih _ h1 h2 h3 h4 h5
        | some raw2 =>
          rw [runTargets_cons_processed B d fss q n rest st info2 raw2 hB2 hmem2 hlq2]
          by_cases hn : n = name
          · subst hn
            rw [hB] at hB2
            injection hB2 with hinfo
            subst hinfo
            rw [hlq] at hlq2
            injection hlq2 with hraw
            subst hraw
            obtain ⟨w1, w2, w3, w4, w5⟩ := getStat_after_target_writes st.stats n
              QUOTA_FILESETS_CRITICAL
              (if (process_fileset_quota B.now
                (get_mmrepquota_maps raw info.data_replication_factor).2 d).isEmpty
               then 0 else 1)
              QUOTA_USERS_WARNING QUOTA_USERS_CRITICAL
              (if (process_user_quota B.now
                (get_mmrepquota_maps raw info.data_replication_factor).1 d).isEmpty
               then 0
               else (process_user_quota B.now
                 (get_mmrepquota_maps raw info.data_replication_factor).1 d).length)
            exact ih _ w1 w2 w3 w4 (w5.trans (congrArg some (isEmpty_ite_length _)))
          · have g11 : n ++ "_fileset_critical" ≠ name ++ "_fileset_critical" :=
              fun hc => hn (string_append_right_cancel hc)
            have g22 : n ++ "_fileset" ≠ name ++ "_fileset" :=
              fun hc => hn (string_append_right_cancel hc)
            have g33 : n ++ "_users_warning" ≠ name ++ "_users_warning" :=
              fun hc => hn (string_append_right_cancel hc)
            have g44 : n ++ "_users_critical" ≠ name ++ "_users_critical" :=
              fun hc => hn (string_append_right_cancel hc)
            have g55 : n ++ "_users" ≠ name ++ "_users" :=
              fun hc => hn (string_append_right_cancel hc)
            have g12 := string_append_suffix_ne n name "_fileset_critical" "_fileset" (by decide)
            have g13 := string_append_suffix_ne n name "_fileset_critical" "_users_warning" (by decide)
            have g14 := string_append_suffix_ne n name "_fileset_critical" "_users_critical" (by decide)
            have g15 := string_append_suffix_ne n name "_fileset_critical" "_users" (by decide)
            have g21 := string_append_suffix_ne n name "_fileset" "_fileset_critical" (by decide)
            have g23 := string_append_suffix_ne n name "_fileset" "_users_warning" (by decide)
            have g24 := string_append_suffix_ne n name "_fileset" "_users_critical" (by decide)
            have g25 := string_append_suffix_ne n name "_fileset" "_users" (by decide)
            have g31 := string_append_suffix_ne n name "_users_warning" "_fileset_critical" (by decide)
            have g32 := string_append_suffix_ne n name "_users_warning" "_fileset" (by decide)
            have g34 := string_append_suffix_ne n name "_users_warning" "_users_critical" (by decide)
            have g35 := string_append_suffix_ne n name "_users_warning" "_users" (by decide)
            have g41 := string_append_suffix_ne n name "_users_critical" "_fileset_critical" (by decide)
            have g42 := string_append_suffix_ne n name "_users_critical" "_fileset" (by decide)
            have g43 := string_append_suffix_ne n name "_users_critical" "_users_warning" (by decide)
            have g45 := string_append_suffix_ne n name "_users_critical" "_users" (by decide)
            have g51 := string_append_suffix_ne n name "_users" "_fileset_critical" (by decide)
            have g52 := string_append_suffix_ne n name "_users" "_fileset" (by decide)
            have g53 := string_append_suffix_ne n name "_users" "_users_warning" (by decide)
            have g54 := string_append_suffix_ne n name "_users" "_users_critical" (by decide)
            refine ih _ ?_ ?_ ?_ ?_ ?_
            · rw [getStat_setStat_ne _ g51, getStat_setStat_ne _ g41,
                getStat_setStat_ne _ g31, getStat_setStat_ne _ g21,
                getStat_setStat_ne _ g11]
              exact h1
            · rw [getStat_setStat_ne _ g52, getStat_setStat_ne _ g42,
                getStat_setStat_ne _ g32, getStat_setStat_ne _ g22,
                getStat_setStat_ne _ g12]
              exact h2
            · rw [getStat_setStat_ne _ g53, getStat_setStat_ne _ g43,
                getStat_setStat_ne _ g33, getStat_setStat_ne _ g23,
                getStat_setStat_ne _ g13]
              exact h3
            · rw [getStat_setStat_ne _ g54, getStat_setStat_ne _ g44,
                getStat_setStat_ne _ g34, getStat_setStat_ne _ g24,
                getStat_setStat_ne _ g14]
              exact h4
            · rw [getStat_setStat_ne _ g55, getStat_setStat_ne _ g45,
                getStat_setStat_ne _ g35, getStat_setStat_ne _ g25,
                getStat_setStat_ne _ g15]
              exact h5
      · rw [runTargets_cons_skipMissing B d fss q n rest st info2 hB2 hmem2]
        exact ih _ h1 h2 h3 h4 h5

/-- Stats entries of any processed target on a completed cycle: wherever
the target sits in the configuration order, its five stats keys hold the
module constants, the fileset flag and the exceeding-user count in the
final mapping. -/
theorem tryBody_processed_target_stats (opts : Options) (B : Backend)
    (u : List (Nat × String)) (tfs fss fsets : List String)
    (q : List (String × List RawEntry)) (res : BodyRes)
    (l1 l2 : List String) (name : String) (info : StorageInfo) (raw : List RawEntry)
    (hu : B.uidMapResult = .ok u)
    (htf : targetFilesystems B opts.storage = .ok tfs)
    (hlf : B.listFilesystems tfs = .ok fss)
    (hfs : B.listFilesetsResult = .ok fsets)
    (hq : B.listQuotaResult = .ok q)
    (hsplit : opts.storage = l1 ++ name :: l2)
    (hB : B.storageMap name = some info)
    (hmem : info.filesystem ∈ fss)
    (hlq : lookupQuota q info.filesystem = some raw)
    (hok : (tryBody opts B).2 = .ok res) :
    getStat res.stats (name ++ "_fileset_critical") = some QUOTA_FILESETS_CRITICAL ∧
    getStat res.stats (name ++ "_fileset") =
      some (if (process_fileset_quota B.now
        (get_mmrepquota_maps raw info.data_replication_factor).2 opts.dry_run).isEmpty
        then 0 else 1) ∧
    getStat res.stats (name ++ "_users_warning") = some QUOTA_USERS_WARNING ∧
    getStat res.stats (name ++ "_users_critical") = some QUOTA_USERS_CRITICAL ∧
    getStat res.stats (name ++ "_users") =
      some (process_user_quota B.now
        (get_mmrepquota_maps raw info.data_replication_factor).1 opts.dry_run).length := by
  unfold tryBody at hok
  simp only [hu, htf, hlf, hfs, hq] at hok
  obtain ⟨⟨st, o⟩, hr⟩ : ∃ p, runTargets B opts.dry_run fss q opts.storage
      { events := [Event.fetchQuota], exFilesets := [], exUsers := [], stats := [] } = p :=
    ⟨_, rfl⟩
  rw [hr] at hok
  cases o with
  | some e2 => simp at hok
  | none =>
    simp only [Except.ok.injEq] at hok
    rw [hsplit, runTargets_append] at hr
    obtain ⟨⟨st1, o1⟩, hr1⟩ : ∃ p, runTargets B opts.dry_run fss q l1
        { events := [Event.fetchQuota], exFilesets := [], exUsers := [], stats := [] } = p :=
      ⟨_, rfl⟩
    rw [hr1] at hr
    cases o1 with
    | some e2 => simp only [] at hr; cases hr
    | none =>
      simp only [] at hr
      rw [runTargets_cons_processed B opts.dry_run fss q name l2 st1 info raw hB hmem hlq] at hr
      obtain ⟨w1, w2, w3, w4, w5⟩ := getStat_after_target_writes st1.stats name
        QUOTA_FILESETS_CRITICAL
        (if (process_fileset_quota B.now
          (get_mmrepquota_maps raw info.data_replication_factor).2 opts.dry_run).isEmpty
         then 0 else 1)
        QUOTA_USERS_WARNING QUOTA_USERS_CRITICAL
        (if (process_user_quota B.now
          (get_mmrepquota_maps raw info.data_replication_factor).1 opts.dry_run).isEmpty
         then 0
         else (process_user_quota B.now
           (get_mmrepquota_maps raw info.data_replication_factor).1 opts.dry_run).length)
      have hfinal := runTargets_preserves_target_stats B opts.dry_run fss q name info raw
        hB hlq l2
        { events := st1.events ++ Event.processTarget name ::
            (notify_exceeding_filesets name info.filesystem
              (process_fileset_quota B.now
                (get_mmrepquota_maps raw info.data_replication_factor).2 opts.dry_run)
              opts.dry_run
             ++ notify_exceeding_users name info.filesystem
              (process_user_quota B.now
                (get_mmrepquota_maps raw info.data_replication_factor).1 opts.dry_run)
              opts.dry_run)
        , exFilesets := st1.exFilesets ++ [(name,
            process_fileset_quota B.now
              (get_mmrepquota_maps raw info.data_replication_factor).2 opts.dry_run)]
        , exUsers := st1.exUsers ++ [(name,
            process_user_quota B.now
              (get_mmrepquota_maps raw info.data_replication_factor).1 opts.dry_run)]
        , stats := setStat (setStat (setStat (setStat (setStat st1.stats
            (name ++ "_fileset_critical") QUOTA_FILESETS_CRITICAL)
            (name ++ "_fileset")
              (if (process_fileset_quota B.now
                (get_mmrepquota_maps raw info.data_replication_factor).2 opts.dry_run).isEmpty
               then 0 else 1))
            (name ++ "_users_warning") QUOTA_USERS_WARNING)
            (name ++ "_users_critical") QUOTA_USERS_CRITICAL)
            (name ++ "_users")
              (if (process_user_quota B.now
                (get_mmrepquota_maps raw info.data_replication_factor).1 opts.dry_run).isEmpty
               then 0
               else (process_user_quota B.now
                 (get_mmrepquota_maps raw
                   info.data_replication_factor).1 opts.dry_run).length) }
        w1 w2 w3 w4 (w5.trans (congrArg some (isEmpty_ite_length _)))
      rw [hr] at hfinal
      simp only [] at hfinal
      rw [← hok]
      exact hfinal

/-- Counterexample for C4: on a concrete cycle whose single target has two
exceeding filesets, the per-target fileset stats entry is 1, not the count
2. -/
theorem c4_counterexample :
    ∃ r, (tryBody { storage := ["s"], dry_run := false } cexBackend).2 = .ok r ∧
      (∃ l, r.exFilesets = [("s", l)] ∧ l.length = 2) ∧
      getStat r.stats ("s" ++ "_fileset") = some 1 ∧
      ¬ getStat r.stats ("s" ++ "_fileset") = some 2 :=
  ⟨_, rfl, ⟨_, rfl, rfl⟩, rfl, by decide⟩

/-- Claim C4 (amended): for every processed target, at any position in the
configuration order, the per-target users stats entry equals the number of
exceeding users, and the per-target fileset stats entry is a presence flag
— 1 when at least one fileset exceeds, else 0 — not the exceeding-fileset
count. -/
theorem c4_user_count_fileset_flag (opts : Options) (B : Backend)
    (u : List (Nat × String)) (tfs fss fsets : List String)
    (q : List (String × List RawEntry)) (res : BodyRes)
    (l1 l2 : List String) (name : String) (info : StorageInfo) (raw : List RawEntry)
    (hu : B.uidMapResult = .ok u)
    (htf : targetFilesystems B opts.storage = .ok tfs)
    (hlf : B.listFilesystems tfs = .ok fss)
    (hfs : B.listFilesetsResult = .ok fsets)
    (hq : B.listQuotaResult = .ok q)
    (hsplit : opts.storage = l1 ++ name :: l2)
    (hB : B.storageMap name = some info)
    (hmem : info.filesystem ∈ fss)
    (hlq : lookupQuota q info.filesystem = some raw)
    (hok : (tryBody opts B).2 = .ok res) :
    getStat res.stats (name ++ "_users") =
      some (process_user_quota B.now
        (get_mmrepquota_maps raw info.data_replication_factor).1 opts.dry_run).length ∧
    getStat res.stats (name ++ "_fileset") =
      some (if (process_fileset_quota B.now
        (get_mmrepquota_maps raw info.data_replication_factor).2 opts.dry_run).isEmpty
        then 0 else 1) := by
  obtain ⟨-, hfl, -, -, hus⟩ := tryBody_processed_target_stats opts B u tfs fss fsets q res
    l1 l2 name info raw hu htf hlf hfs hq hsplit hB hmem hlq hok
  exact ⟨hus, hfl⟩

/-- Witness for the amended C4 on a concrete cycle whose processed target
is the first of two configured targets (the second is skipped). -/
theorem c4_witness :
    (twoTargetBackend.uidMapResult = .ok [] ∧
      targetFilesystems twoTargetBackend ["b", "a"] = .ok ["fb", "fa"] ∧
      twoTargetBackend.listFilesystems ["fb", "fa"] = .ok ["fb"] ∧
      twoTargetBackend.listFilesetsResult = .ok [] ∧
      twoTargetBackend.listQuotaResult =
        .ok [("fb", [ { entity := "u1", kind := .USR, record := hardBreachRecord } ])] ∧
      (["b", "a"] : List String) = [] ++ "b" :: ["a"] ∧
      twoTargetBackend.storageMap "b" = some { filesystem := "fb", data_replication_factor := 1 } ∧
      ("fb" : String) ∈ (["fb"] : List String) ∧
      lookupQuota [("fb", [ { entity := "u1", kind := .USR, record := hardBreachRecord } ])] "fb" =
        some [ { entity := "u1", kind := .USR, record := hardBreachRecord } ] ∧
      (tryBody { storage := ["b", "a"], dry_run := false } twoTargetBackend).2 =
        .ok { exFilesets := [("b", [])]
            , exUsers := [("b", [("u1", hardBreachRecord, ExceedKind.block)])]
            , stats := [ ("b" ++ "_fileset_critical", 1), ("b" ++ "_fileset", 0)
                       , ("b" ++ "_users_warning", 20), ("b" ++ "_users_critical", 40)
                       , ("b" ++ "_users", 1) ] }) ∧
    (getStat ({ exFilesets := [("b", [])]
              , exUsers := [("b", [("u1", hardBreachRecord, ExceedKind.block)])]
              , stats := [ ("b" ++ "_fileset_critical", 1), ("b" ++ "_fileset", 0)
                         , ("b" ++ "_users_warning", 20), ("b" ++ "_users_critical", 40)
                         , ("b" ++ "_users", 1) ] } : BodyRes).stats ("b" ++ "_users") =
        some (process_user_quota twoTargetBackend.now
          (get_mmrepquota_maps [ { entity := "u1", kind := .USR, record := hardBreachRecord } ] 1).1
          false).length ∧
      getStat ({ exFilesets := [("b", [])]
               , exUsers := [("b", [("u1", hardBreachRecord, ExceedKind.block)])]
               , stats := [ ("b" ++ "_fileset_critical", 1), ("b" ++ "_fileset", 0)
                          , ("b" ++ "_users_warning", 20), ("b" ++ "_users_critical", 40)
                          , ("b" ++ "_users", 1) ] } : BodyRes).stats ("b" ++ "_fileset") =
        some (if (process_fileset_quota twoTargetBackend.now
          (get_mmrepquota_maps [ { entity := "u1", kind := .USR, record := hardBreachRecord } ] 1).2
          false).isEmpty then 0 else 1)) :=
  ⟨⟨rfl, rfl, rfl, rfl, rfl, rfl, rfl, by decide, rfl, rfl⟩,
    c4_user_count_fileset_flag { storage := ["b", "a"], dry_run := false } twoTargetBackend
      [] ["fb", "fa"] ["fb"] []
      [("fb", [ { entity := "u1", kind := .USR, record := hardBreachRecord } ])]
      { exFilesets := [("b", [])]
      , exUsers := [("b", [("u1", hardBreachRecord, ExceedKind.block)])]
      , stats := [ ("b" ++ "_fileset_critical", 1), ("b" ++ "_fileset", 0)
                 , ("b" ++ "_users_warning", 20), ("b" ++ "_users_critical", 40)
                 , ("b" ++ "_users", 1) ] }
      [] ["a"] "b" { filesystem := "fb", data_replication_factor := 1 }
      [ { entity := "u1", kind := .USR, record := hardBreachRecord } ]
      rfl rfl rfl rfl rfl rfl rfl (by decide) rfl rfl⟩

/-- Counterexample for C5: a spec-words configuration supplies a
users-warning threshold of 5, but the recorded per-target entry is the
module constant 20 for every configuration — the thresholds are not taken
from the configuration input. -/
theorem c5_counterexample :
    cexSpecConfig.quotaUsersWarning = 5 ∧
    ∃ r, (tryBody { storage := cexSpecConfig.storage, dry_run := cexSpecConfig.dry_run }
        cexBackend).2 = .ok r ∧
      getStat r.stats ("s" ++ "_users_warning") = some QUOTA_USERS_WARNING ∧
      ¬ getStat r.stats ("s" ++ "_users_warning") = some cexSpecConfig.quotaUsersWarning :=
  ⟨rfl, _, rfl, rfl, by decide⟩

/-- Claim C5 (amended): the per-kind severity thresholds recorded in every
processed target's stats entries, at any position in the configuration
order, are the fixed module constants `QUOTA_FILESETS_CRITICAL` = 1,
`QUOTA_USERS_WARNING` = 20 and `QUOTA_USERS_CRITICAL` = 40, independent of
the configuration input, which has no threshold options. -/
theorem c5_thresholds_module_constants (opts : Options) (B : Backend)
    (u : List (Nat × String)) (tfs fss fsets : List String)
    (q : List (String × List RawEntry)) (res : BodyRes)
    (l1 l2 : List String) (name : String) (info : StorageInfo) (raw : List RawEntry)
    (hu : B.uidMapResult = .ok u)
    (htf : targetFilesystems B opts.storage = .ok tfs)
    (hlf : B.listFilesystems tfs = .ok fss)
    (hfs : B.listFilesetsResult = .ok fsets)
    (hq : B.listQuotaResult = .ok q)
    (hsplit : opts.storage = l1 ++ name :: l2)
    (hB : B.storageMap name = some info)
    (hmem : info.filesystem ∈ fss)
    (hlq : lookupQuota q info.filesystem = some raw)
    (hok : (tryBody opts B).2 = .ok res) :
    getStat res.stats (name ++ "_fileset_critical") = some QUOTA_FILESETS_CRITICAL ∧
    getStat res.stats (name ++ "_users_warning") = some QUOTA_USERS_WARNING ∧
    getStat res.stats (name ++ "_users_critical") = some QUOTA_USERS_CRITICAL := by
  obtain ⟨hfc, -, huw, huc, -⟩ := tryBody_processed_target_stats opts B u tfs fss fsets q res
    l1 l2 name info raw hu htf hlf hfs hq hsplit hB hmem hlq hok
  exact ⟨hfc, huw, huc⟩

/-- Witness for the amended C5 on a concrete cycle whose processed target
is the first of two configured targets (the second is skipped). -/
theorem c5_witness :
    (twoTargetBackend.uidMapResult = .ok [] ∧
      targetFilesystems twoTargetBackend ["b", "a"] = .ok ["fb", "fa"] ∧
      twoTargetBackend.listFilesystems ["fb", "fa"] = .ok ["fb"] ∧
      twoTargetBackend.listFilesetsResult = .ok [] ∧
      twoTargetBackend.listQuotaResult =
        .ok [("fb", [ { entity := "u1", kind := .USR, record := hardBreachRecord } ])] ∧
      (["b", "a"] : List String) = [] ++ "b" :: ["a"] ∧
      twoTargetBackend.storageMap "b" = some { filesystem := "fb", data_replication_factor := 1 } ∧
      ("fb" : String) ∈ (["fb"] : List String) ∧
      lookupQuota [("fb", [ { entity := "u1", kind := .USR, record := hardBreachRecord } ])] "fb" =
        some [ { entity := "u1", kind := .USR, record := hardBreachRecord } ] ∧
      (tryBody { storage := ["b", "a"], dry_run := false } twoTargetBackend).2 =
        .ok { exFilesets := [("b", [])]
            , exUsers := [("b", [("u1", hardBreachRecord, ExceedKind.block)])]
            , stats := [ ("b" ++ "_fileset_critical", 1), ("b" ++ "_fileset", 0)
                       , ("b" ++ "_users_warning", 20), ("b" ++ "_users_critical", 40)
                       , ("b" ++ "_users", 1) ] }) ∧
    (getStat ({ exFilesets := [("b", [])]
              , exUsers := [("b", [("u1", hardBreachRecord, ExceedKind.block)])]
              , stats := [ ("b" ++ "_fileset_critical", 1), ("b" ++ "_fileset", 0)
                         , ("b" ++ "_users_warning", 20), ("b" ++ "_users_critical", 40)
                         , ("b" ++ "_users", 1) ] } : BodyRes).stats
        ("b" ++ "_fileset_critical") = some QUOTA_FILESETS_CRITICAL ∧
      getStat ({ exFilesets := [("b", [])]
               , exUsers := [("b", [("u1", hardBreachRecord, ExceedKind.block)])]
               , stats := [ ("b" ++ "_fileset_critical", 1), ("b" ++ "_fileset", 0)
                          , ("b" ++ "_users_warning", 20), ("b" ++ "_users_critical", 40)
                          , ("b" ++ "_users", 1) ] } : BodyRes).stats
        ("b" ++ "_users_warning") = some QUOTA_USERS_WARNING ∧
      getStat ({ exFilesets := [("b", [])]
               , exUsers := [("b", [("u1", hardBreachRecord, ExceedKind.block)])]
               , stats := [ ("b" ++ "_fileset_critical", 1), ("b" ++ "_fileset", 0)
                          , ("b" ++ "_users_warning", 20), ("b" ++ "_users_critical", 40)
                          , ("b" ++ "_users", 1) ] } : BodyRes).stats
        ("b" ++ "_users_critical") = some QUOTA_USERS_CRITICAL) :=
  ⟨⟨rfl, rfl, rfl, rfl, rfl, rfl, rfl, by decide, rfl, rfl⟩,
    c5_thresholds_module_constants { storage := ["b", "a"], dry_run := false } twoTargetBackend
      [] ["fb", "fa"] ["fb"] []
      [("fb", [ { entity := "u1", kind := .USR, record := hardBreachRecord } ])]
      { exFilesets := [("b", [])]
      , exUsers := [("b", [("u1", hardBreachRecord, ExceedKind.block)])]
      , stats := [ ("b" ++ "_fileset_critical", 1), ("b" ++ "_fileset", 0)
                 , ("b" ++ "_users_warning", 20), ("b" ++ "_users_critical", 40)
                 , ("b" ++ "_users", 1) ] }
      [] ["a"] "b" { filesystem := "fb", data_replication_factor := 1 }
      [ { entity := "u1", kind := .USR, record := hardBreachRecord } ]
      rfl rfl rfl rfl rfl rfl rfl (by decide) rfl rfl⟩

theorem notify_filesets_notifyArgs (s f : String) (items : List Exc) (d : Bool) :
    (notify_exceeding_filesets s f items d).filterMap notifyArgs = [(false, s, f, items)] := by
  cases d with
  | true => rfl
  | false =>
    simp only [notify_exceeding_filesets, if_neg Bool.false_ne_true, List.filterMap_cons]
    rw [filterMap_deliver_map notifyArgs .FILESET s items (fun _ _ _ => rfl)]
    rfl

theorem notify_users_notifyArgs (s f : String) (items : List Exc) (d : Bool) :
    (notify_exceeding_users s f items d).filterMap notifyArgs = [(true, s, f, items)] := by
  cases d with
  | true => rfl
  | false =>
    simp only [notify_exceeding_users, if_neg Bool.false_ne_true, List.filterMap_cons]
    rw [filterMap_deliver_map notifyArgs .USR s items (fun _ _ _ => rfl)]
    rfl

/-- In dry-run mode the loop emits no delivery events at all. -/
theorem runTargets_dry_no_deliver (B : Backend) (fss : List String)
    (q : List (String × List RawEntry)) :
    ∀ (names : List String) (st : LoopState),
      (runTargets B true fss q names st).1.events.filter isDeliver =
        st.events.filter isDeliver := by
  intro names
  induction names with
  | nil => intro st; simp [runTargets]
  | cons name rest ih =>
    intro st
    cases hB : B.storageMap name with
    | none =>
      rw [runTargets_cons_unknown B true fss q name rest st hB]
      simp [List.filter_append, isDeliver, List.filter_cons]
    | some info =>
      by_cases hmem : info.filesystem ∈ fss
      · cases hlq : lookupQuota q info.filesystem with
        | none =>
          rw [runTargets_cons_skipNoQuota B true fss q name rest st info hB hmem hlq, ih]
          simp [List.filter_append, isDeliver, List.filter_cons]
        | some raw =>
          rw [runTargets_cons_processed B true fss q name rest st info raw hB hmem hlq, ih]
          simp [List.filter_append, isDeliver, List.filter_cons,
            notify_exceeding_filesets, notify_exceeding_users]
      · rw [runTargets_cons_skipMissing B true fss q name rest st info hB hmem, ih]
        simp [List.filter_append, isDeliver, List.filter_cons]

/-- Dry-run and live runs of the loop from related states stay related: the
exceeding dicts, the stats and the dispatcher invocation arguments evolve
identically, and both abort in the same way. -/
theorem runTargets_dry_run_rel (B : Backend) (fss : List String)
    (q : List (String × List RawEntry)) :
    ∀ (names : List String) (st1 st2 : LoopState),
      st1.exFilesets = st2.exFilesets → st1.exUsers = st2.exUsers → st1.stats = st2.stats →
      st1.events.filterMap notifyArgs = st2.events.filterMap notifyArgs →
      ((runTargets B false fss q names st1).1.exFilesets =
          (runTargets B true fss q names st2).1.exFilesets ∧
        (runTargets B false fss q names st1).1.exUsers =
          (runTargets B true fss q names st2).1.exUsers ∧
        (runTargets B false fss q names st1).1.stats =
          (runTargets B true fss q names st2).1.stats ∧
        (runTargets B false fss q names st1).1.events.filterMap notifyArgs =
          (runTargets B true fss q names st2).1.events.filterMap notifyArgs ∧
        (runTargets B false fss q names st1).2 = (runTargets B true fss q names st2).2) := by
  intro names
  induction names with
  | nil =>
    intro st1 st2 hF hU hS hE
    simpa [runTargets] using ⟨hF, hU, hS, hE⟩
  | cons name rest ih =>
    intro st1 st2 hF hU hS hE
    cases hB : B.storageMap name with
    | none =>
      rw [runTargets_cons_unknown B false fss q name rest st1 hB,
        runTargets_cons_unknown B true fss q name rest st2 hB]
      refine ⟨hF, hU, hS, ?_, rfl⟩
      simp [List.filterMap_append, hE, notifyArgs, List.filterMap_cons]
    | some info =>
      by_cases hmem : info.filesystem ∈ fss
      · cases hlq : lookupQuota q info.filesystem with
        | none =>
          rw [runTargets_cons_skipNoQuota B false fss q name rest st1 info hB hmem hlq,
            runTargets_cons_skipNoQuota B true fss q name rest st2 info hB hmem hlq]
          exact ih _ _ hF hU hS
            (by simp [List.filterMap_append, hE, notifyArgs, List.filterMap_cons])
        | some raw =>
          rw [runTargets_cons_processed B false fss q name rest st1 info raw hB hmem hlq,
            runTargets_cons_processed B true fss q name rest st2 info raw hB hmem hlq]
          refine ih _ _ ?_ ?_ ?_ ?_
          · simp only [process_fileset_quota]
            rw [hF]
          · simp only [process_user_quota]
            rw [hU]
          · simp only [process_fileset_quota, process_user_quota]
            rw [hS]
          · simp only [List.filterMap_append, List.filterMap_cons,
              notify_filesets_notifyArgs, notify_users_notifyArgs,
              process_fileset_quota, process_user_quota]
            rw [hE]
      · rw [runTargets_cons_skipMissing B false fss q name rest st1 info hB hmem,
          runTargets_cons_skipMissing B true fss q name rest st2 info hB hmem]
        exact ih _ _ hF hU hS
          (by simp [List.filterMap_append, hE, notifyArgs, List.filterMap_cons])

/-- Claim C6: for the same configuration and backend snapshot, a dry run
and a live run produce the same cycle result — the same exceeding-entity
dicts and the same final stats mapping, or the same abort — and the
notification dispatcher is invoked with the same interface arguments; the
dry run performs no delivery at all. -/
theorem c6_dry_run_equivalence (storageNames : List String) (B : Backend) :
    (tryBody { storage := storageNames, dry_run := false } B).2 =
      (tryBody { storage := storageNames, dry_run := true } B).2 ∧
    (tryBody { storage := storageNames, dry_run := false } B).1.filterMap notifyArgs =
      (tryBody { storage := storageNames, dry_run := true } B).1.filterMap notifyArgs ∧
    (tryBody { storage := storageNames, dry_run := true } B).1.filter isDeliver = [] := by
  unfold tryBody
  cases hu : B.uidMapResult with
  | error e => exact ⟨rfl, rfl, rfl⟩
  | ok u =>
    simp only []
    cases htf : targetFilesystems B storageNames with
    | error e => exact ⟨rfl, rfl, rfl⟩
    | ok tfs =>
      simp only []
      cases hlf : B.listFilesystems tfs with
      | error e => exact ⟨rfl, rfl, rfl⟩
      | ok fss =>
        simp only []
        cases hfs : B.listFilesetsResult with
        | error e => exact ⟨rfl, rfl, rfl⟩
        | ok fsets =>
          simp only []
          cases hq : B.listQuotaResult with
          | error e => exact ⟨rfl, rfl, rfl⟩
          | ok q =>
            simp only []
            obtain ⟨hrF2, hrU2, hrS2, hrE2, hrO2⟩ := runTargets_dry_run_rel B fss q storageNames
              { events := [Event.fetchQuota], exFilesets := [], exUsers := [], stats := [] }
              { events := [Event.fetchQuota], exFilesets := [], exUsers := [], stats := [] }
              rfl rfl rfl rfl
            have hdel := runTargets_dry_no_deliver B fss q storageNames
              { events := [Event.fetchQuota], exFilesets := [], exUsers := [], stats := [] }
            obtain ⟨⟨stF, oF⟩, hrf⟩ : ∃ p, runTargets B false fss q storageNames
                { events := [Event.fetchQuota], exFilesets := [], exUsers := [], stats := [] } = p :=
              ⟨_, rfl⟩
            obtain ⟨⟨stT, oT⟩, hrt⟩ : ∃ p, runTargets B true fss q storageNames
                { events := [Event.fetchQuota], exFilesets := [], exUsers := [], stats := [] } = p :=
              ⟨_, rfl⟩
            rw [hrf, hrt] at hrF2 hrU2 hrS2 hrE2 hrO2 ⊢
            rw [hrt] at hdel
            simp only [] at hrF2 hrU2 hrS2 hrE2 hrO2 hdel ⊢
            subst hrO2
            cases oF with
            | some e2 => exact ⟨rfl, hrE2, by simp [hdel, isDeliver]⟩
            | none =>
              refine ⟨?_, hrE2, by simp [hdel, isDeliver]⟩
              simp only [Except.ok.injEq]
              rw [hrF2, hrU2, hrS2]

end DQuota
